import Mathlib

/-!
# snowbudget: the browser front end `script/api.js`

A shallow embedding of the rendering layer of the budget page and the
properties its specification states about it.

Modelling conventions

* A number of the payload is the decimal numeral of the JSON text, a rational.
  `JSNumber` is the IEEE 754 double it parses to, with correctly rounded `+`, `-`
  and `*`, the infinities, the two zeros and `NaN`.  The date of a timestamp and
  the net line of the summary (`summary_refresh_double`) are computed with doubles.
  The functions without the suffix `_double` add prices as exact numbers; they
  serve the statements that take prices as exact numbers or evaluate a payload on
  which both arithmetics agree.
* The document is the three container elements the script looks up when it is
  loaded (`budget_summary`, `bclass_expenses`, `bclass_income`) with the element
  trees below them.  A string assigned through `innerHTML` is kept as one leaf of
  markup; it is taken to carry no element with an `id` attribute.
* Node identity is a position: a handle is the container and the child indices
  leading to the node.  The script only ever appends children (and clears the
  summary container), so a position keeps naming the same node.
* The console and the calls made to the external `collapsible_init` are recorded
  in the page state.
-/

namespace Snowbudget

/-! ## Data model -/

/-- One entry of a budget class's `history`. -/
structure Transaction where
  id : String
  timestamp : ℚ
  price : ℚ
  vendor : String
  description : String
  deriving DecidableEq

/-- One budget class of the payload. -/
structure BClass where
  id : String
  name : String
  type : String
  description : String
  history : List Transaction
  deriving DecidableEq

/-! ## Platform functions used by the script -/

/-- JavaScript `String.prototype.toLowerCase`, on the letters `A`..`Z`.  No character outside
that range lower-cases to a letter of `e`, `expense`, `i` or `income`, so the
classification predicates below agree with the full Unicode mapping. -/
def toLowerCase (s : String) : String :=
  String.mk (s.data.map Char.toLower)

/-- Digits of the integer part, least significant first, with a comma after every
third digit that has a digit to its left. -/
def groupDigits : List Char → List Char
  | a :: b :: c :: rest =>
    if rest.isEmpty then [a, b, c] else a :: b :: c :: ',' :: groupDigits rest
  | l => l

/-- The integer part of an amount in the `en-US` locale: groups of three digits
separated by commas. -/
def formatInteger (n : Nat) : String :=
  String.mk (groupDigits (Nat.toDigits 10 n).reverse).reverse

/-- Two fraction digits. -/
def formatCents (c : Nat) : String :=
  (if c < 10 then "0" else "") ++ toString c

/-- JavaScript `Intl.NumberFormat("en-US", {style: "currency", currency: "USD",
minimumFractionDigits: 2, maximumFractionDigits: 2}).format` on an exact number:
the magnitude is rounded to cents, halves away from zero; a negative number keeps
its sign in front of the currency symbol. -/
def NumberFormat_format (value : ℚ) : String :=
  let cents : Nat := (Int.floor (|value| * 100 + 1 / 2)).toNat
  let sign := if value < 0 then "-" else ""
  sign ++ "$" ++ formatInteger (cents / 100) ++ "." ++ formatCents (cents % 100)

/-- Milliseconds in a day. -/
def msPerDay : Int := 86400000

/-- Day number of a time value (ECMA-262 `Day`). -/
def Day (t : Int) : Int := t / msPerDay

/-- Day number of the first day of year `y` (ECMA-262 `DayFromYear`). -/
def DayFromYear (y : Int) : Int :=
  365 * (y - 1970) + (y - 1969) / 4 - (y - 1901) / 100 + (y - 1601) / 400

/-- Number of days of year `y` (ECMA-262 `DaysInYear`). -/
def DaysInYear (y : Int) : Int :=
  if y % 4 ≠ 0 then 365
  else if y % 100 ≠ 0 then 366
  else if y % 400 ≠ 0 then 365
  else 366

/-- The year a time value falls in (ECMA-262 `YearFromTime`): the largest `y` with
`DayFromYear y ≤ Day t`, found next to the estimate from the mean year length. -/
def YearFromTime (t : Int) : Int :=
  let d := Day t
  let y := 1970 + (d * 400) / 146097
  if DayFromYear (y + 1) ≤ d then y + 1
  else if DayFromYear y ≤ d then y
  else y - 1

/-- Zero-based day within the year (ECMA-262 `DayWithinYear`). -/
def DayWithinYear (t : Int) : Int := Day t - DayFromYear (YearFromTime t)

/-- One when the year of `t` is a leap year, else zero (ECMA-262 `InLeapYear`). -/
def InLeapYear (t : Int) : Int :=
  if DaysInYear (YearFromTime t) = 366 then 1 else 0

/-- Zero-based month of a time value (ECMA-262 `MonthFromTime`). -/
def MonthFromTime (t : Int) : Int :=
  let d := DayWithinYear t
  let l := InLeapYear t
  if d < 31 then 0
  else if d < 59 + l then 1
  else if d < 90 + l then 2
  else if d < 120 + l then 3
  else if d < 151 + l then 4
  else if d < 181 + l then 5
  else if d < 212 + l then 6
  else if d < 243 + l then 7
  else if d < 273 + l then 8
  else if d < 304 + l then 9
  else if d < 334 + l then 10
  else 11

/-- Day of the month, from one (ECMA-262 `DateFromTime`). -/
def DateFromTime (t : Int) : Int :=
  let d := DayWithinYear t
  let l := InLeapYear t
  let m := MonthFromTime t
  if m = 0 then d + 1
  else if m = 1 then d - 30
  else if m = 2 then d - 58 - l
  else if m = 3 then d - 89 - l
  else if m = 4 then d - 119 - l
  else if m = 5 then d - 150 - l
  else if m = 6 then d - 180 - l
  else if m = 7 then d - 211 - l
  else if m = 8 then d - 242 - l
  else if m = 9 then d - 272 - l
  else if m = 10 then d - 303 - l
  else d - 333 - l

/-- A JavaScript number that is an integer or `NaN` (`none`). -/
abbrev JSInt := Option Int

/-- JavaScript `String(n)` for such a number. -/
def JSInt.toString : JSInt → String
  | none => "NaN"
  | some n => ToString.toString n

/-- Numeric `+` with a finite integer. -/
def JSInt.add (a : JSInt) (b : Int) : JSInt := a.map (· + b)

/-- A JavaScript number: an IEEE 754 double.  A finite number is its sign and its
magnitude, so that the two zeros are told apart. -/
inductive JSNumber where
  | nan
  | infinity (negative : Bool)
  | finite (negative : Bool) (magnitude : ℚ)
  deriving DecidableEq

/-- The power `2 ^ k` for an integer exponent. -/
def pow2 (k : Int) : ℚ :=
  if 0 ≤ k then ((2 ^ k.toNat : Nat) : ℚ) else 1 / ((2 ^ (-k).toNat : Nat) : ℚ)

/-- The number of halvings that bring `n` below 2, with `fuel` steps at most. -/
def log2Loop : Nat → Nat → Nat
  | 0, _ => 0
  | fuel + 1, n => if n < 2 then 0 else log2Loop fuel (n / 2) + 1

/-- The exponent of the binade of a positive rational: the largest `e` with
`2 ^ e ≤ q`. -/
def floorLog2 (q : ℚ) : Int :=
  let k : Int := (log2Loop q.num.natAbs q.num.natAbs : Int) - (log2Loop q.den q.den : Int)
  if pow2 k ≤ q then k else k - 1

/-- The nearest integer, a tie going to the even one. -/
def roundHalfEven (x : ℚ) : Int :=
  let f := Int.floor x
  let d := x - f
  if d < 1 / 2 then f
  else if 1 / 2 < d then f + 1
  else if f % 2 = 0 then f
  else f + 1

namespace JSNumber

/-- The double nearest to the number of sign `negative` and magnitude `q`, a tie
going to the even significand: 53 significant bits, exponents from -1022 to 1023,
subnormal numbers below, infinity from `2 ^ 1024` on. -/
def round (negative : Bool) (q : ℚ) : JSNumber :=
  if q = 0 then finite negative 0
  else
    let e := max (floorLog2 q) (-1022)
    let ulp := pow2 (e - 52)
    let r := (roundHalfEven (q / ulp) : ℚ) * ulp
    if pow2 1024 ≤ r then infinity negative else finite negative r

/-- The double a decimal numeral of a JSON text parses to. -/
def ofRat (q : ℚ) : JSNumber := round (decide (q < 0)) |q|

/-- The number `+0`. -/
def zero : JSNumber := finite false 0

/-- The real value of a finite double. -/
def value (negative : Bool) (magnitude : ℚ) : ℚ :=
  if negative then -magnitude else magnitude

/-- Unary minus. -/
def neg : JSNumber → JSNumber
  | nan => nan
  | infinity n => infinity (!n)
  | finite n m => finite (!n) m

/-- The sum `a + b`, correctly rounded. -/
def add : JSNumber → JSNumber → JSNumber
  | nan, _ => nan
  | _, nan => nan
  | infinity a, infinity b => if a = b then infinity a else nan
  | infinity a, finite _ _ => infinity a
  | finite _ _, infinity b => infinity b
  | finite na ma, finite nb mb =>
    let s := value na ma + value nb mb
    if s = 0 then finite (na && nb) 0 else round (decide (s < 0)) |s|

/-- The difference `a - b`, correctly rounded. -/
def sub (a b : JSNumber) : JSNumber := add a (neg b)

/-- The product `a * b`, correctly rounded. -/
def mul : JSNumber → JSNumber → JSNumber
  | nan, _ => nan
  | _, nan => nan
  | infinity a, infinity b => infinity (xor a b)
  | infinity a, finite nb mb => if mb = 0 then nan else infinity (xor a nb)
  | finite na ma, infinity b => if ma = 0 then nan else infinity (xor na b)
  | finite na ma, finite nb mb => round (xor na nb) (ma * mb)

/-- The comparison `a < b`. -/
def lt : JSNumber → JSNumber → Bool
  | nan, _ => false
  | _, nan => false
  | infinity a, infinity b => a && !b
  | infinity a, finite _ _ => a
  | finite _ _, infinity b => !b
  | finite na ma, finite nb mb => decide (value na ma < value nb mb)

/-- The comparison `a > b`. -/
def gt (a b : JSNumber) : Bool := lt b a

/-- The comparison `a == b` of two numbers. -/
def eq : JSNumber → JSNumber → Bool
  | nan, _ => false
  | _, nan => false
  | infinity a, infinity b => a == b
  | infinity _, finite _ _ => false
  | finite _ _, infinity _ => false
  | finite na ma, finite nb mb => decide (value na ma = value nb mb)

/-- The comparison `a != b` of two numbers. -/
def ne (a b : JSNumber) : Bool := !eq a b

end JSNumber

/-- The integer part of a number, rounding toward zero. -/
def truncate (x : ℚ) : Int :=
  if 0 ≤ x then Int.floor x else Int.ceil x

/-- JavaScript `new Date(x)`: the time value of the date object.  `NaN`, an
infinity and a number beyond 8.64e15 milliseconds from the epoch give an invalid
date (`none`); otherwise the number is truncated to an integer (ECMA-262
`TimeClip`). -/
def Date_new (x : JSNumber) : Option Int :=
  match x with
  | .finite negative magnitude =>
    if magnitude ≤ 8640000000000000 then some (truncate (JSNumber.value negative magnitude))
    else none
  | _ => none

/-- The local time of a time value, given the offset of the local time zone at
each instant (ECMA-262 `LocalTime`). -/
def LocalTime (tza : Int → Int) (t : Int) : Int := t + tza t

/-- JavaScript `Date.prototype.getFullYear`. -/
def getFullYear (tza : Int → Int) (date : Option Int) : JSInt :=
  date.map (fun t => YearFromTime (LocalTime tza t))

/-- JavaScript `Date.prototype.getMonth`. -/
def getMonth (tza : Int → Int) (date : Option Int) : JSInt :=
  date.map (fun t => MonthFromTime (LocalTime tza t))

/-- JavaScript `Date.prototype.getDate`. -/
def getDate (tza : Int → Int) (date : Option Int) : JSInt :=
  date.map (fun t => DateFromTime (LocalTime tza t))

/-- The time zone offset of UTC. -/
def utc : Int → Int := fun _ => 0

/-! ## Helper functions of the script -/

/-- JavaScript `float_to_dollar_string(value)`. -/
def float_to_dollar_string (value : ℚ) : String :=
  NumberFormat_format value

/-- JavaScript `timestamp_to_date_string(value)`, in the time zone `tza`, for the
timestamp written `value` in the JSON text: the product `value * 1000.0` is a
product of doubles. -/
def timestamp_to_date_string (tza : Int → Int) (value : ℚ) : String :=
  let date := Date_new ((JSNumber.ofRat value).mul (JSNumber.ofRat 1000))
  let str := (getFullYear tza date).toString ++ "-"
  let str := str ++ (((getMonth tza date).add 1).toString ++ "-")
  let str := str ++ (getDate tza date).toString
  str

/-- JavaScript `bclass_is_expense(bclass)`. -/
def bclass_is_expense (bclass : BClass) : Bool :=
  let t := toLowerCase bclass.type
  t == "e" || t == "expense"

/-- JavaScript `bclass_is_income(bclass)`. -/
def bclass_is_income (bclass : BClass) : Bool :=
  let t := toLowerCase bclass.type
  t == "i" || t == "income"

/-- JavaScript `bclass_sum(bclass)`: the loop over `bclass.history`. -/
def bclass_sum (bclass : BClass) : ℚ :=
  bclass.history.foldl (fun sum t => sum + t.price) 0

/-! ## Document model -/

/-- A node of the document: markup assigned through `innerHTML`, or an element
with its tag, `id` (empty when it has none), `className`, the handlers added with
`addEventListener` and its children. -/
inductive Node where
  | html (markup : String)
  | element (tag : String) (id : String) (className : String)
      (listeners : List (String × String)) (children : List Node)

namespace Node

/-- The nodes an `innerHTML` string stands for: none for the empty string, one leaf
otherwise.  For a text without markup the leaf is its text node; markup is kept
as written and the elements it would create are not modelled. -/
def ofMarkup (s : String) : List Node :=
  if s = "" then [] else [html s]

/-- JavaScript `document.createElement(tag)`. -/
def createElement (tag : String) : Node := element tag "" "" [] []

/-- JavaScript `node.id = v`. -/
def setId (node : Node) (v : String) : Node :=
  match node with
  | element t _ c l cs => element t v c l cs
  | n => n

/-- JavaScript `node.className = v`. -/
def setClassName (node : Node) (v : String) : Node :=
  match node with
  | element t i _ l cs => element t i v l cs
  | n => n

/-- JavaScript `node.className += v`. -/
def appendClassName (node : Node) (v : String) : Node :=
  match node with
  | element t i c l cs => element t i (c ++ v) l cs
  | n => n

/-- JavaScript `node.innerHTML = s`. -/
def setInnerHTML (node : Node) (s : String) : Node :=
  match node with
  | element t i c l _ => element t i c l (ofMarkup s)
  | n => n

/-- JavaScript `node.innerHTML += s`: the children are serialised and parsed again, followed
by what `s` stands for. -/
def appendInnerHTML (node : Node) (s : String) : Node :=
  match node with
  | element t i c l cs => element t i c l (cs ++ ofMarkup s)
  | n => n

/-- JavaScript `node.appendChild(child)`. -/
def appendChild (node : Node) (child : Node) : Node :=
  match node with
  | element t i c l cs => element t i c l (cs ++ [child])
  | n => n

/-- JavaScript `node.addEventListener(event, handler)`. -/
def addEventListener (node : Node) (event handler : String) : Node :=
  match node with
  | element t i c l cs => element t i c (l ++ [(event, handler)]) cs
  | n => n

end Node

mutual
/-- Position, below `n`, of the first element in tree order whose id is `i`. -/
def Node.find (i : String) : Node → Option (List Nat)
  | .html _ => none
  | .element _ id _ _ cs => if id = i then some [] else findList i 0 cs
/-- Position of the first element in tree order whose id is `i` among the trees
`ns`, the first of which has index `k`. -/
def findList (i : String) (k : Nat) : List Node → Option (List Nat)
  | [] => none
  | n :: ns =>
    match n.find i with
    | some p => some (k :: p)
    | none => findList i (k + 1) ns
end

/-- Applies `f` to the children of the element at position `path` below the
sibling list `cs`; the empty path names the list itself. -/
def modifyChildrenAt (f : List Node → List Node) : List Nat → List Node → List Node
  | [], cs => f cs
  | k :: p, cs =>
    cs.modify (fun n =>
      match n with
      | .element t i c l ch => .element t i c l (modifyChildrenAt f p ch)
      | n => n) k

/-- The host document: the children of its three containers. -/
structure Document where
  budget_summary : List Node
  bclass_expenses : List Node
  bclass_income : List Node

/-- JavaScript `summary_container`, as a position in the document. -/
def summary_container : List Nat := [0]

/-- JavaScript `bclass_expense_container`, as a position in the document. -/
def bclass_expense_container : List Nat := [1]

/-- JavaScript `bclass_income_container`, as a position in the document. -/
def bclass_income_container : List Nat := [2]

namespace Document

/-- The container elements in document order: the summary at the top of the
page, then the expense classes, then the income classes. -/
def roots (d : Document) : List Node :=
  [.element "div" "budget_summary" "" [] d.budget_summary,
   .element "div" "bclass_expenses" "" [] d.bclass_expenses,
   .element "div" "bclass_income" "" [] d.bclass_income]

/-- JavaScript `document.getElementById(i)`: the position of the first element with that
id, `none` for `null`.  No element is found for the empty id. -/
def getElementById (d : Document) (i : String) : Option (List Nat) :=
  if i = "" then none else findList i 0 d.roots

/-- Applies `f` to the children of the element at `path`. -/
def modifyChildrenAt (f : List Node → List Node) (d : Document) : List Nat → Document
  | 0 :: p => { d with budget_summary := Snowbudget.modifyChildrenAt f p d.budget_summary }
  | 1 :: p => { d with bclass_expenses := Snowbudget.modifyChildrenAt f p d.bclass_expenses }
  | 2 :: p => { d with bclass_income := Snowbudget.modifyChildrenAt f p d.bclass_income }
  | _ => d

/-- JavaScript `parent.appendChild(child)` for a parent in the document. -/
def appendChild (d : Document) (parent : List Nat) (child : Node) : Document :=
  d.modifyChildrenAt (fun cs => cs ++ [child]) parent

/-- JavaScript `parent.innerHTML = s` for a parent in the document. -/
def setInnerHTML (d : Document) (parent : List Nat) (s : String) : Document :=
  d.modifyChildrenAt (fun _ => Node.ofMarkup s) parent

/-- Position of the child that `appendChild` adds next to the element at `path`
when that element has `n` children. -/
def childPath (path : List Nat) (n : Nat) : List Nat := path ++ [n]

end Document

/-- What a script variable holding an element refers to: an element of the
document, by position, or an element that is in no document. -/
inductive Handle where
  | attached (path : List Nat)
  | detached (n : Node)

/-- The page as the script sees it: the document, the lines written with
`console.log`, and the ids of the buttons `collapsible_init` was called with, in
call order. -/
structure Page where
  document : Document
  console : List String
  collapsible_init_calls : List String

namespace Page

/-- JavaScript `console.log(msg)`. -/
def log (s : Page) (msg : String) : Page :=
  { s with console := s.console ++ [msg] }

/-- JavaScript `collapsible_init(btn)` for a button whose id is `btn_id`; what the external
routine does to the button is not modelled. -/
def collapsible_init (s : Page) (btn_id : String) : Page :=
  { s with collapsible_init_calls := s.collapsible_init_calls ++ [btn_id] }

/-- JavaScript `parent.appendChild(child)`; the parent keeps its identity. -/
def appendChild (s : Page) (parent : Handle) (child : Node) : Page × Handle :=
  match parent with
  | .attached path => ({ s with document := s.document.appendChild path child }, parent)
  | .detached n => (s, .detached (n.appendChild child))

end Page

/-- JavaScript `Array.prototype.sort(compare)`: a stable sort that puts `a` before `b` when
`compare a b` is negative. -/
def Array_sort {α : Type} {β : Type} [LinearOrderedRing β] [DecidableRel (α := β) (· ≤ ·)]
    (compare : α → α → β) (xs : List α) : List α :=
  xs.insertionSort (fun a b => compare a b ≤ 0)

/-! ## HTML elements -/

open Node in
/-- JavaScript `make_collapsible_button(id, text, rtext, classes, rclasses)`. -/
def make_collapsible_button (id text rtext classes rclasses : String) : Node :=
  let btn := createElement "button"
  let btn := btn.setId id
  let btn := btn.setClassName ("collapsible-button " ++ classes)
  let btn := btn.setInnerHTML text
  let span := createElement "span"
  let span := span.setClassName ("collapsible-button-indicator " ++ rclasses)
  let span := span.setInnerHTML rtext
  let btn := btn.appendChild span
  btn

open Node in
/-- JavaScript `make_collapsible_content(id)`. -/
def make_collapsible_content (id : String) : Node :=
  let div := createElement "div"
  let div := div.setId id
  let div := div.setClassName "collapsible-content"
  div

open Node in
/-- JavaScript `make_bclass_menu(bclass)`. -/
def make_bclass_menu (bclass : BClass) : Node :=
  let div := createElement "div"
  let div := div.setClassName "button-container"
  let desc := createElement "p"
  let desc := desc.setInnerHTML bclass.description
  let div := div.appendChild desc
  div

/-- The comparison function `make_bclass_history` sorts the history with. -/
def compare_timestamp (t1 t2 : Transaction) : ℚ := t2.timestamp - t1.timestamp

open Node in
/-- The header row of a transaction table: the loop over `columns`. -/
def make_header_row : Node :=
  let row1 := createElement "tr"
  let row1 := row1.setClassName "ttable-row"
  let columns := ["Date", "Price", "Vendor", "Description"]
  columns.foldl (fun row1 column =>
    let th := createElement "th"
    let th := th.setClassName "ttable-header"
    let span := createElement "span"
    let span := span.setClassName "color-text1"
    let span := span.setInnerHTML ("<b>" ++ column ++ "</b>")
    let th := th.appendChild span
    row1.appendChild th) row1

open Node in
/-- The row of one transaction: the body of the loop over `bclass.history`. -/
def make_transaction_row (tza : Int → Int) (t : Transaction) : Node :=
  let row := createElement "tr"
  let row := row.setClassName "ttable-transaction-row"
  let row := row.setId t.id
  let values := [timestamp_to_date_string tza t.timestamp,
                 float_to_dollar_string t.price,
                 t.vendor, t.description]
  let row := values.foldl (fun row value =>
    let td := createElement "td"
    let td := td.setClassName "ttable-cell"
    let span := createElement "span"
    let span := span.setClassName "color-text1"
    let span := span.setInnerHTML value
    let td := td.appendChild span
    row.appendChild td) row
  let row := row.addEventListener "click" "click_transaction_row"
  row

open Node in
/-- JavaScript `make_bclass_history(bclass)`.  The script sorts `bclass.history` in place; the
sorted history is the local `history` here. -/
def make_bclass_history (tza : Int → Int) (bclass : BClass) : Node :=
  if bclass.history.length = 0 then
    let msg := createElement "p"
    let msg := msg.setInnerHTML ""
    msg
  else
    let history := Array_sort compare_timestamp bclass.history
    let tdiv := createElement "div"
    let tdiv := tdiv.setClassName "ttable-container"
    let table := createElement "table"
    let table := table.setClassName "ttable"
    let table :=
      if bclass_is_expense bclass then table.appendClassName " color-expense3"
      else if bclass_is_income bclass then table.appendClassName " color-income3"
      else table
    let table := table.appendChild make_header_row
    let table := history.foldl (fun table t =>
      table.appendChild (make_transaction_row tza t)) table
    let tdiv := tdiv.appendChild table
    tdiv

/-! ## UI updates -/

/-- The statistics `summary_refresh` computes before it renders anything: the loop
over the classes and the difference, `(total_expense, total_income, total)`. -/
def summary_statistics (bclasses : List BClass) : ℚ × ℚ × ℚ :=
  let totals := bclasses.foldl (fun (totals : ℚ × ℚ) bclass =>
    let sum := bclass_sum bclass
    if bclass_is_expense bclass then (totals.1 + sum, totals.2)
    else if bclass_is_income bclass then (totals.1, totals.2 + sum)
    else totals) (0, 0)
  let total_expense := totals.1
  let total_income := totals.2
  let total := total_income - total_expense
  (total_expense, total_income, total)

open Node in
/-- JavaScript `summary_refresh(bclasses)`. -/
def summary_refresh (s : Page) (bclasses : List BClass) : Page :=
  let s := { s with document := s.document.setInnerHTML summary_container "" }
  let total_expense := (summary_statistics bclasses).1
  let total_income := (summary_statistics bclasses).2.1
  let total := (summary_statistics bclasses).2.2
  let elem := createElement "p"
  let total_expense_elem := createElement "b"
  let total_expense_elem := total_expense_elem.setClassName "color-expense1"
  let total_expense_elem := total_expense_elem.setInnerHTML "Total expenses: "
  let elem := elem.appendChild total_expense_elem
  let elem := elem.appendInnerHTML (float_to_dollar_string total_expense ++ "<br>")
  let total_income_elem := createElement "b"
  let total_income_elem := total_income_elem.setClassName "color-income1"
  let total_income_elem := total_income_elem.setInnerHTML "Total income: "
  let elem := elem.appendChild total_income_elem
  let elem := elem.appendInnerHTML (float_to_dollar_string total_income ++ "<br>")
  let total_elem := createElement "b"
  let net_str := "Broken even!"
  let (total_elem, net_str) :=
    if total < 0 then (total_elem.appendClassName "color-acc4", "In-the-hole: ")
    else if total > 0 then (total_elem.appendClassName "color-acc2", "Extra cash: ")
    else (total_elem, net_str)
  let total_elem := total_elem.setInnerHTML net_str
  let elem := elem.appendChild total_elem
  let elem := if total ≠ 0 then elem.appendInnerHTML (float_to_dollar_string total) else elem
  { s with document := s.document.appendChild summary_container elem }

/-- JavaScript `bclass_sum(bclass)` in the arithmetic of doubles: every price is the
double its JSON numeral parses to, and every `+=` rounds. -/
def bclass_sum_double (bclass : BClass) : JSNumber :=
  bclass.history.foldl (fun sum t => sum.add (JSNumber.ofRat t.price)) JSNumber.zero

/-- The statistics `summary_refresh` computes before it renders anything, in the
arithmetic of doubles: `(total_expense, total_income, total)`. -/
def summary_statistics_double (bclasses : List BClass) : JSNumber × JSNumber × JSNumber :=
  let totals := bclasses.foldl (fun (totals : JSNumber × JSNumber) bclass =>
    let sum := bclass_sum_double bclass
    if bclass_is_expense bclass then (totals.1.add sum, totals.2)
    else if bclass_is_income bclass then (totals.1, totals.2.add sum)
    else totals) (JSNumber.zero, JSNumber.zero)
  let total_expense := totals.1
  let total_income := totals.2
  let total := total_income.sub total_expense
  (total_expense, total_income, total)

/-- JavaScript `float_to_dollar_string(value)` for a double: what the currency
formatter of the browser, `format`, gives for it. -/
def float_to_dollar_string_double (format : JSNumber → String) (value : JSNumber) : String :=
  format value

open Node in
/-- JavaScript `summary_refresh(bclasses)` in the arithmetic of doubles.  The
currency formatter of the browser is the parameter `format`. -/
def summary_refresh_double (format : JSNumber → String) (s : Page)
    (bclasses : List BClass) : Page :=
  let s := { s with document := s.document.setInnerHTML summary_container "" }
  let total_expense := (summary_statistics_double bclasses).1
  let total_income := (summary_statistics_double bclasses).2.1
  let total := (summary_statistics_double bclasses).2.2
  let elem := createElement "p"
  let total_expense_elem := createElement "b"
  let total_expense_elem := total_expense_elem.setClassName "color-expense1"
  let total_expense_elem := total_expense_elem.setInnerHTML "Total expenses: "
  let elem := elem.appendChild total_expense_elem
  let elem := elem.appendInnerHTML (float_to_dollar_string_double format total_expense ++ "<br>")
  let total_income_elem := createElement "b"
  let total_income_elem := total_income_elem.setClassName "color-income1"
  let total_income_elem := total_income_elem.setInnerHTML "Total income: "
  let elem := elem.appendChild total_income_elem
  let elem := elem.appendInnerHTML (float_to_dollar_string_double format total_income ++ "<br>")
  let total_elem := createElement "b"
  let net_str := "Broken even!"
  let (total_elem, net_str) :=
    if total.lt JSNumber.zero then (total_elem.appendClassName "color-acc4", "In-the-hole: ")
    else if total.gt JSNumber.zero then
      (total_elem.appendClassName "color-acc2", "Extra cash: ")
    else (total_elem, net_str)
  let total_elem := total_elem.setInnerHTML net_str
  let elem := elem.appendChild total_elem
  let elem := if total.ne JSNumber.zero then elem.appendInnerHTML (float_to_dollar_string_double format total) else elem
  { s with document := s.document.appendChild summary_container elem }

/-- JavaScript `menu_refresh(bclasses)`: nothing yet. -/
def menu_refresh (s : Page) (_bclasses : List BClass) : Page := s

open Node in
/-- The first block of `budget_class_refresh`: the element whose id is the class's
id is looked up and, when there is none, created and appended to the container of
the class's type.  Gives the page and the script's `bclass_div`. -/
def budget_class_refresh_div (s : Page) (bclass : BClass) : Page × Handle :=
  let bclass_div := s.document.getElementById bclass.id
  match bclass_div with
  | some path => (s, Handle.attached path)
  | none =>
    let bclass_div := createElement "div"
    let bclass_div := bclass_div.setId bclass.id
    if bclass_is_expense bclass then
      ({ s with document := s.document.appendChild bclass_expense_container bclass_div },
        Handle.attached
          (Document.childPath bclass_expense_container s.document.bclass_expenses.length))
    else if bclass_is_income bclass then
      ({ s with document := s.document.appendChild bclass_income_container bclass_div },
        Handle.attached
          (Document.childPath bclass_income_container s.document.bclass_income.length))
    else
      (s.log ("Found budget class of unknown type: " ++ bclass.id), Handle.detached bclass_div)

/-- The second block of `budget_class_refresh`: the button is looked up and, when
there is none, created and appended to `bclass_div`. -/
def budget_class_refresh_button (s : Page) (bclass_div : Handle) (bclass : BClass) :
    Page × Handle :=
  let btn_id := bclass.id ++ "_btn"
  let bclass_btn := s.document.getElementById btn_id
  match bclass_btn with
  | some _ => (s, bclass_div)
  | none =>
    let classes := "font-main"
    let rclasses := "font-main"
    let (classes, rclasses) :=
      if bclass_is_expense bclass then
        (classes ++ " color-expense1", rclasses ++ " color-expense2")
      else if bclass_is_income bclass then
        (classes ++ " color-income1", rclasses ++ " color-income2")
      else (classes, rclasses)
    let sumstr := float_to_dollar_string (bclass_sum bclass)
    let bclass_btn := make_collapsible_button btn_id bclass.name sumstr classes rclasses
    s.appendChild bclass_div bclass_btn

/-- The third block of `budget_class_refresh`: the content region is looked up and,
when there is none, created, appended to `bclass_div`, wired with `collapsible_init`
and filled with the menu and the history.  The region is appended here with its
menu and history already in it; the script appends it empty and fills it
afterwards, which gives the same tree. -/
def budget_class_refresh_content (tza : Int → Int) (s : Page) (bclass_div : Handle)
    (bclass : BClass) : Page :=
  let btn_id := bclass.id ++ "_btn"
  let content_id := bclass.id ++ "_content"
  let bclass_content := s.document.getElementById content_id
  match bclass_content with
  | some _ => s
  | none =>
    let bclass_content := make_collapsible_content content_id
    let bclass_content := bclass_content.appendChild (make_bclass_menu bclass)
    let bclass_content := bclass_content.appendChild (make_bclass_history tza bclass)
    let s := (s.appendChild bclass_div bclass_content).1
    s.collapsible_init btn_id

/-- JavaScript `budget_class_refresh(bclass)`: its three blocks in turn. -/
def budget_class_refresh (tza : Int → Int) (s : Page) (bclass : BClass) : Page :=
  let r := budget_class_refresh_div s bclass
  let r := budget_class_refresh_button r.1 r.2 bclass
  budget_class_refresh_content tza r.1 r.2 bclass

/-- JavaScript `budget_classes_refresh(bclasses)`. -/
def budget_classes_refresh (tza : Int → Int) (s : Page) (bclasses : List BClass) : Page :=
  bclasses.foldl (budget_class_refresh tza) s

/-! ## Initialization -/

/-- The object a response body parses to: its `success` flag as a truth value, its
`message`, and its `payload` when it has one. -/
structure Envelope where
  success : Bool
  message : String
  payload : Option (List BClass)

/-- What `JSON.parse` gives for the response body: `null`, another falsy value
(`false`, `0`, `""`), or an object. -/
inductive Response where
  | null
  | falsy
  | object (data : Envelope)

/-- How an asynchronous function ends: it returns with a value, or it throws. -/
inductive Completion (α : Type) where
  | returned (s : Page) (value : α)
  | threw (s : Page) (error : String)

/-- JavaScript `retrieve_data()`, given what `send_request` resolves to. -/
def retrieve_data (s : Page) (data : Response) : Completion Response :=
  match data with
  | .null => .threw s "TypeError"
  | .falsy =>
    let message := "failed to retrieve content (" ++ "undefined" ++ ")."
    .returned (s.log message) data
  | .object e =>
    if !e.success then
      let message := "failed to retrieve content (" ++ e.message ++ ")."
      .returned (s.log message) data
    else .returned s data

/-- JavaScript `ui_init()`, given the time zone, the collation `localeCompare` of the
browser and what the server answered. -/
def ui_init (tza : Int → Int) (localeCompare : String → String → Int)
    (s : Page) (response : Response) : Completion Unit :=
  match retrieve_data s response with
  | .threw s error => .threw s error
  | .returned s data =>
    match data with
    | .null | .falsy => .returned (s.log "Failed to retrieve data.") ()
    | .object data =>
      match data.payload with
      | none => .threw s "TypeError"
      | some bclasses =>
        let bclasses := Array_sort (fun c1 c2 => localeCompare c1.name c2.name) bclasses
        let s := summary_refresh s bclasses
        let s := menu_refresh s bclasses
        let s := budget_classes_refresh tza s bclasses
        .returned s ()

/-! ## Example inputs -/

/-- A page whose containers are empty, with nothing logged. -/
def initial_page : Page :=
  { document := { budget_summary := [], bclass_expenses := [], bclass_income := [] },
    console := [], collapsible_init_calls := [] }

/-- The class of the end-to-end example; it has no `description`, which the
script reads as `undefined`. -/
def rent : BClass :=
  { id := "c1", name := "Rent", type := "expense", description := "undefined",
    history := [{ id := "t1", timestamp := 1000, price := 500, vendor := "X",
                  description := "d" }] }

/-- An expense class and an income class whose sums both overflow. -/
def overflowing : List BClass :=
  [{ id := "e1", name := "Land", type := "expense", description := "",
     history := [{ id := "t1", timestamp := 1, price := 1e308, vendor := "", description := "" },
                 { id := "t2", timestamp := 2, price := 1e308, vendor := "", description := "" }] },
   { id := "i1", name := "Sale", type := "income", description := "",
     history := [{ id := "t3", timestamp := 3, price := 1e308, vendor := "", description := "" },
                 { id := "t4", timestamp := 4, price := 1e308, vendor := "", description := "" }] }]

/-- Expenses of 0.1 and 0.2 against an income of 0.3. -/
def dimes : List BClass :=
  [{ id := "e1", name := "Sweets", type := "expense", description := "",
     history := [{ id := "t1", timestamp := 1, price := 0.1, vendor := "", description := "" },
                 { id := "t2", timestamp := 2, price := 0.2, vendor := "", description := "" }] },
   { id := "i1", name := "Refund", type := "income", description := "",
     history := [{ id := "t3", timestamp := 3, price := 0.3, vendor := "", description := "" }] }]

/-- A class whose transactions have the timestamps 5, 1 and 3. -/
def groceries : BClass :=
  { id := "c2", name := "Groceries", type := "E", description := "food",
    history := [{ id := "a", timestamp := 5, price := 12.5, vendor := "V", description := "" },
                { id := "b", timestamp := 1, price := 3, vendor := "W", description := "" },
                { id := "c", timestamp := 3, price := 7.25, vendor := "V", description := "" }] }

/-- The page a function left behind, whichever way it ended. -/
def Completion.page {α : Type} : Completion α → Page
  | .returned s _ => s
  | .threw s _ => s

/-- Comparison of two names by code units, standing in the examples for the
collation of `localeCompare`. -/
def compare_code_units (a b : String) : Int :=
  if a < b then -1 else if a = b then 0 else 1

/-- A failure envelope that nevertheless carries a payload. -/
def failed_with_payload : Response :=
  .object { success := false, message := "database offline", payload := some [rent] }


mutual
/-- The ids of the elements of a tree, in tree order; an element without an id
contributes the empty string. -/
def Node.ids : Node → List String
  | .html _ => []
  | .element _ id _ _ cs => id :: idsList cs
/-- The ids of the elements of a list of trees, in tree order. -/
def idsList : List Node → List String
  | [] => []
  | n :: ns => n.ids ++ idsList ns
end

/-- The ids of all elements of the document, in document order. -/
def Document.ids (d : Document) : List String := idsList d.roots

/-- The ids `budget_class_refresh` looks up for a class: that of its element, of
its button and of its content region. -/
def bclass_keys (bclass : BClass) : List String :=
  [bclass.id, bclass.id ++ "_btn", bclass.id ++ "_content"]

open Node in
/-- The element `budget_class_refresh` builds for a class when the document holds
no element with the class's id, with its button id or with its content id: the
`div` of the first block with the button of the second and the content region of
the third appended to it. -/
def bclass_panel (tza : Int → Int) (bclass : BClass) : Node :=
  let bclass_div := createElement "div"
  let bclass_div := bclass_div.setId bclass.id
  let classes := "font-main"
  let rclasses := "font-main"
  let (classes, rclasses) :=
    if bclass_is_expense bclass then
      (classes ++ " color-expense1", rclasses ++ " color-expense2")
    else if bclass_is_income bclass then
      (classes ++ " color-income1", rclasses ++ " color-income2")
    else (classes, rclasses)
  let sumstr := float_to_dollar_string (bclass_sum bclass)
  let bclass_btn :=
    make_collapsible_button (bclass.id ++ "_btn") bclass.name sumstr classes rclasses
  let bclass_div := bclass_div.appendChild bclass_btn
  let bclass_content := make_collapsible_content (bclass.id ++ "_content")
  let bclass_content := bclass_content.appendChild (make_bclass_menu bclass)
  let bclass_content := bclass_content.appendChild (make_bclass_history tza bclass)
  bclass_div.appendChild bclass_content


/-- An expense class one of whose transactions has the id `c2_btn`. -/
def utilities : BClass :=
  { id := "c1", name := "Utilities", type := "expense", description := "power and water",
    history := [{ id := "c2_btn", timestamp := 10, price := 40, vendor := "Power",
                  description := "" }] }

/-- An expense class with the id `c2` and no transactions. -/
def travel : BClass :=
  { id := "c2", name := "Travel", type := "expense", description := "", history := [] }

/-- A class whose type is neither expense nor income. -/
def misc : BClass :=
  { id := "u1", name := "Misc", type := "x", description := "", history := [] }

/-- A class of unknown type that has the id of the class `rent`. -/
def rent_shadow : BClass :=
  { id := "c1", name := "Rent again", type := "x", description := "", history := [] }


/-! ## Classification and sums -/

theorem toLowerCase_expense_ne_income (t : String) :
    ¬ ((toLowerCase t = "e" ∨ toLowerCase t = "expense") ∧
       (toLowerCase t = "i" ∨ toLowerCase t = "income")) := by
  rintro ⟨h1 | h1, h2 | h2⟩ <;> rw [h1] at h2 <;> revert h2 <;> decide

theorem bclass_is_expense_iff (bclass : BClass) :
    bclass_is_expense bclass = true ↔
      toLowerCase bclass.type = "e" ∨ toLowerCase bclass.type = "expense" := by
  simp [bclass_is_expense]

theorem bclass_is_income_iff (bclass : BClass) :
    bclass_is_income bclass = true ↔
      toLowerCase bclass.type = "i" ∨ toLowerCase bclass.type = "income" := by
  simp [bclass_is_income]

theorem not_expense_and_income (bclass : BClass) :
    ¬ (bclass_is_expense bclass = true ∧ bclass_is_income bclass = true) := by
  rw [bclass_is_expense_iff, bclass_is_income_iff]
  exact toLowerCase_expense_ne_income bclass.type

theorem bclass_is_expense_false_of_income {bclass : BClass}
    (h : bclass_is_income bclass = true) : bclass_is_expense bclass = false := by
  cases he : bclass_is_expense bclass
  · rfl
  · exact absurd ⟨he, h⟩ (not_expense_and_income bclass)

theorem foldl_price (l : List Transaction) (a : ℚ) :
    l.foldl (fun sum t => sum + t.price) a = a + (l.map (fun t => t.price)).sum := by
  induction l generalizing a with
  | nil => simp
  | cons t l ih => simp [ih, add_assoc]

theorem bclass_sum_eq (bclass : BClass) :
    bclass_sum bclass = (bclass.history.map (fun t => t.price)).sum := by
  simp [bclass_sum, foldl_price]

theorem summary_totals_foldl (l : List BClass) (a b : ℚ) :
    l.foldl (fun (totals : ℚ × ℚ) bclass =>
      let sum := bclass_sum bclass
      if bclass_is_expense bclass then (totals.1 + sum, totals.2)
      else if bclass_is_income bclass then (totals.1, totals.2 + sum)
      else totals) (a, b) =
    (a + ((l.filter bclass_is_expense).map bclass_sum).sum,
     b + ((l.filter bclass_is_income).map bclass_sum).sum) := by
  induction l generalizing a b with
  | nil => simp
  | cons c l ih =>
    rw [List.foldl_cons]
    by_cases he : bclass_is_expense c = true
    · have hi : bclass_is_income c = false := by
        cases hi : bclass_is_income c
        · rfl
        · exact absurd ⟨he, hi⟩ (not_expense_and_income c)
      simp [he, hi, ih, add_assoc]
    · by_cases hi : bclass_is_income c = true
      · simp [he, hi, ih, add_assoc]
      · simp [he, hi, ih]

/-- C5. A class is an expense class exactly when its type, lower-cased, is `e` or
`expense`, and an income class exactly when it is `i` or `income`; `E`, `e`,
`Expense` and `EXPENSE` are expense types, `x` is neither, and no class is
both. -/
theorem classification_case_insensitive (bclass : BClass) :
    (bclass_is_expense bclass = true ↔
      toLowerCase bclass.type = "e" ∨ toLowerCase bclass.type = "expense") ∧
    (bclass_is_income bclass = true ↔
      toLowerCase bclass.type = "i" ∨ toLowerCase bclass.type = "income") ∧
    bclass_is_expense { bclass with type := "E" } = true ∧
    bclass_is_expense { bclass with type := "e" } = true ∧
    bclass_is_expense { bclass with type := "Expense" } = true ∧
    bclass_is_expense { bclass with type := "EXPENSE" } = true ∧
    bclass_is_expense { bclass with type := "x" } = false ∧
    bclass_is_income { bclass with type := "x" } = false ∧
    ¬ (bclass_is_expense bclass = true ∧ bclass_is_income bclass = true) :=
  ⟨bclass_is_expense_iff bclass, bclass_is_income_iff bclass, rfl, rfl, rfl, rfl, rfl, rfl,
    not_expense_and_income bclass⟩

/-- C2. The summary's expense total is the sum of `bclass_sum` over the expense
classes, its income total the sum over the income classes and its net value the
income total minus the expense total; `bclass_sum` is the sum of the prices of the
history; a class that is neither expense nor income contributes to no total. -/
theorem summary_statistics_spec (bclasses : List BClass) :
    (summary_statistics bclasses).1 =
      ((bclasses.filter bclass_is_expense).map bclass_sum).sum ∧
    (summary_statistics bclasses).2.1 =
      ((bclasses.filter bclass_is_income).map bclass_sum).sum ∧
    (summary_statistics bclasses).2.2 =
      (summary_statistics bclasses).2.1 - (summary_statistics bclasses).1 ∧
    (∀ bclass : BClass, bclass_sum bclass = (bclass.history.map (fun t => t.price)).sum) ∧
    (∀ (pre post : List BClass) (bclass : BClass),
      bclass_is_expense bclass = false → bclass_is_income bclass = false →
      summary_statistics (pre ++ bclass :: post) = summary_statistics (pre ++ post)) := by
  have h : ∀ l : List BClass, summary_statistics l =
      (((l.filter bclass_is_expense).map bclass_sum).sum,
       ((l.filter bclass_is_income).map bclass_sum).sum,
       ((l.filter bclass_is_income).map bclass_sum).sum -
        ((l.filter bclass_is_expense).map bclass_sum).sum) := by
    intro l
    unfold summary_statistics
    rw [summary_totals_foldl]
    simp
  refine ⟨by rw [h], by rw [h], by rw [h], bclass_sum_eq, ?_⟩
  intro pre post bclass he hi
  rw [h, h]
  simp [List.filter_cons, he, hi]

/-! ## Strings -/

theorem eq_empty_of_length_eq_zero (s : String) (h : s.length = 0) : s = "" := by
  cases s with
  | mk d =>
    have hd : d = [] := List.length_eq_zero.mp h
    subst hd
    rfl

theorem append_ne_empty_right (a b : String) (h : b ≠ "") : a ++ b ≠ "" := by
  intro e
  have hl := congrArg String.length e
  rw [String.length_append] at hl
  have hb : b.length = 0 := by
    have : ("" : String).length = 0 := rfl
    omega
  exact h (eq_empty_of_length_eq_zero b hb)

theorem append_ne_empty_left (a b : String) (h : a ≠ "") : a ++ b ≠ "" := by
  intro e
  have hl := congrArg String.length e
  rw [String.length_append] at hl
  have ha : a.length = 0 := by
    have : ("" : String).length = 0 := rfl
    omega
  exact h (eq_empty_of_length_eq_zero a ha)

theorem float_to_dollar_string_ne_empty (value : ℚ) : float_to_dollar_string value ≠ "" := by
  unfold float_to_dollar_string NumberFormat_format
  simp only
  apply append_ne_empty_left
  apply append_ne_empty_left
  apply append_ne_empty_left
  apply append_ne_empty_right
  decide

theorem ofMarkup_of_ne {s : String} (h : s ≠ "") : Node.ofMarkup s = [Node.html s] := by
  simp [Node.ofMarkup, h]

/-! ## The summary panel -/

/-- The summary paragraph for given totals: what `summary_refresh` appends to the
summary container. -/
theorem summary_refresh_document (s : Page) (bclasses : List BClass) :
    (summary_refresh s bclasses).document =
      { s.document with
        budget_summary :=
          [Node.element "p" "" "" []
            ([Node.element "b" "" "color-expense1" [] [Node.html "Total expenses: "],
              Node.html (float_to_dollar_string (summary_statistics bclasses).1 ++ "<br>"),
              Node.element "b" "" "color-income1" [] [Node.html "Total income: "],
              Node.html (float_to_dollar_string (summary_statistics bclasses).2.1 ++ "<br>"),
              Node.element "b" ""
                (if (summary_statistics bclasses).2.2 < 0 then "color-acc4"
                 else if (summary_statistics bclasses).2.2 > 0 then "color-acc2" else "") []
                [Node.html
                  (if (summary_statistics bclasses).2.2 < 0 then "In-the-hole: "
                   else if (summary_statistics bclasses).2.2 > 0 then "Extra cash: "
                   else "Broken even!")]] ++
             (if (summary_statistics bclasses).2.2 ≠ 0 then
                [Node.html (float_to_dollar_string (summary_statistics bclasses).2.2)]
              else []))] } := by
  have h1 : ∀ v : ℚ, Node.ofMarkup (float_to_dollar_string v ++ "<br>") =
      [Node.html (float_to_dollar_string v ++ "<br>")] :=
    fun v => ofMarkup_of_ne (append_ne_empty_right _ _ (by decide))
  have h2 : ∀ v : ℚ, Node.ofMarkup (float_to_dollar_string v) =
      [Node.html (float_to_dollar_string v)] :=
    fun v => ofMarkup_of_ne (float_to_dollar_string_ne_empty v)
  have h3 : Node.ofMarkup "Total expenses: " = [Node.html "Total expenses: "] := rfl
  have h4 : Node.ofMarkup "Total income: " = [Node.html "Total income: "] := rfl
  have h5 : Node.ofMarkup "In-the-hole: " = [Node.html "In-the-hole: "] := rfl
  have h6 : Node.ofMarkup "Extra cash: " = [Node.html "Extra cash: "] := rfl
  have h7 : Node.ofMarkup "Broken even!" = [Node.html "Broken even!"] := rfl
  have h8 : Node.ofMarkup "" = [] := rfl
  unfold summary_refresh
  simp only [Document.setInnerHTML, Document.appendChild, summary_container,
    Document.modifyChildrenAt, modifyChildrenAt, Node.createElement, Node.setClassName,
    Node.setInnerHTML, Node.appendChild, Node.appendInnerHTML, Node.appendClassName, h1, h2,
    h3, h4, h8]
  by_cases hneg : (summary_statistics bclasses).2.2 < 0
  · have hne : (summary_statistics bclasses).2.2 ≠ 0 := ne_of_lt hneg
    simp [hneg, hne, h5, h2, Node.setInnerHTML, Node.appendChild, Node.appendInnerHTML,
      Node.appendClassName]
  · by_cases hpos : (summary_statistics bclasses).2.2 > 0
    · have hne : (summary_statistics bclasses).2.2 ≠ 0 := ne_of_gt hpos
      simp [hneg, hpos, hne, h6, h2, Node.setInnerHTML, Node.appendChild,
        Node.appendInnerHTML, Node.appendClassName]
    · have he : (summary_statistics bclasses).2.2 = 0 := le_antisymm (not_lt.mp hpos) (not_lt.mp hneg)
      simp [he, h7, Node.setInnerHTML, Node.appendChild]

theorem summary_statistics_rent : summary_statistics [rent] = (500, 0, -500) := by decide!

theorem summary_rent (s : Page) :
    (summary_refresh s [rent]).document.budget_summary =
      [Node.element "p" "" "" []
        [Node.element "b" "" "color-expense1" [] [Node.html "Total expenses: "],
         Node.html "$500.00<br>",
         Node.element "b" "" "color-income1" [] [Node.html "Total income: "],
         Node.html "$0.00<br>",
         Node.element "b" "" "color-acc4" [] [Node.html "In-the-hole: "],
         Node.html "-$500.00"]] := by
  have e1 : float_to_dollar_string 500 = "$500.00" := by decide!
  have e2 : float_to_dollar_string 0 = "$0.00" := by decide!
  have e3 : float_to_dollar_string (-500) = "-$500.00" := by decide!
  have e4 : "$500.00" ++ "<br>" = "$500.00<br>" := by decide
  have e5 : "$0.00" ++ "<br>" = "$0.00<br>" := by decide
  rw [summary_refresh_document, summary_statistics_rent]
  simp [e1, e2, e3, e4, e5]

/-- C4, as stated, fails: for the example payload the amount after the net label
is not `$500.00`. -/
theorem summary_rent_amount_not_unsigned :
    ¬ ∃ className : String,
      (summary_refresh initial_page [rent]).document.budget_summary =
        [Node.element "p" "" "" []
          [Node.element "b" "" "color-expense1" [] [Node.html "Total expenses: "],
           Node.html "$500.00<br>",
           Node.element "b" "" "color-income1" [] [Node.html "Total income: "],
           Node.html "$0.00<br>",
           Node.element "b" "" className [] [Node.html "In-the-hole: "],
           Node.html "$500.00"]] := by
  rintro ⟨className, h⟩
  rw [summary_rent] at h
  simp at h

/-- C4, amended. For the example payload the summary shows total expenses
`$500.00`, total income `$0.00` and the net label `In-the-hole: ` followed by the
signed amount `-$500.00`. -/
theorem summary_rent_rendered (s : Page) :
    (summary_refresh s [rent]).document.budget_summary =
      [Node.element "p" "" "" []
        [Node.element "b" "" "color-expense1" [] [Node.html "Total expenses: "],
         Node.html "$500.00<br>",
         Node.element "b" "" "color-income1" [] [Node.html "Total income: "],
         Node.html "$0.00<br>",
         Node.element "b" "" "color-acc4" [] [Node.html "In-the-hole: "],
         Node.html "-$500.00"]] :=
  summary_rent s

/-! ## Dates -/

theorem year_bounds (t : Int) :
    DayFromYear (YearFromTime t) ≤ Day t ∧ Day t < DayFromYear (YearFromTime t + 1) := by
  unfold YearFromTime
  simp only
  generalize Day t = d
  generalize hy : 1970 + d * 400 / 146097 = y
  split_ifs with h1 h2
  · refine ⟨h1, ?_⟩
    unfold DayFromYear at *
    omega
  · exact ⟨h2, not_le.mp h1⟩
  · have e : y - 1 + 1 = y := by omega
    rw [e]
    refine ⟨?_, not_le.mp h2⟩
    unfold DayFromYear at *
    omega

theorem days_in_year (y : Int) : DayFromYear (y + 1) - DayFromYear y = DaysInYear y := by
  unfold DayFromYear DaysInYear
  split_ifs <;> omega

theorem day_within_year_bounds (t : Int) :
    0 ≤ DayWithinYear t ∧ DayWithinYear t < 365 + InLeapYear t := by
  have h := year_bounds t
  have hd := days_in_year (YearFromTime t)
  unfold DayWithinYear InLeapYear
  have h365 : DaysInYear (YearFromTime t) = 365 ∨ DaysInYear (YearFromTime t) = 366 := by
    unfold DaysInYear
    split_ifs <;> simp
  rcases h365 with h5 | h6
  · rw [h5] at hd ⊢
    simp
    omega
  · rw [h6] at hd ⊢
    simp
    omega

theorem date_arith (d l m : Int) (h0 : 0 ≤ d) (h1 : d < 365 + l) (hl : l = 0 ∨ l = 1)
    (hm : m = (if d < 31 then 0
      else if d < 59 + l then 1
      else if d < 90 + l then 2
      else if d < 120 + l then 3
      else if d < 151 + l then 4
      else if d < 181 + l then 5
      else if d < 212 + l then 6
      else if d < 243 + l then 7
      else if d < 273 + l then 8
      else if d < 304 + l then 9
      else if d < 334 + l then 10
      else 11)) :
    0 ≤ m ∧ m ≤ 11 ∧
    1 ≤ (if m = 0 then d + 1
      else if m = 1 then d - 30
      else if m = 2 then d - 58 - l
      else if m = 3 then d - 89 - l
      else if m = 4 then d - 119 - l
      else if m = 5 then d - 150 - l
      else if m = 6 then d - 180 - l
      else if m = 7 then d - 211 - l
      else if m = 8 then d - 242 - l
      else if m = 9 then d - 272 - l
      else if m = 10 then d - 303 - l
      else d - 333 - l) ∧
    (if m = 0 then d + 1
      else if m = 1 then d - 30
      else if m = 2 then d - 58 - l
      else if m = 3 then d - 89 - l
      else if m = 4 then d - 119 - l
      else if m = 5 then d - 150 - l
      else if m = 6 then d - 180 - l
      else if m = 7 then d - 211 - l
      else if m = 8 then d - 242 - l
      else if m = 9 then d - 272 - l
      else if m = 10 then d - 303 - l
      else d - 333 - l) ≤ 31 := by
  by_cases c0 : d < 31
  · rw [if_pos c0] at hm
    subst hm
    norm_num
    omega
  rw [if_neg c0] at hm
  by_cases c1 : d < 59 + l
  · rw [if_pos c1] at hm
    subst hm
    norm_num
    omega
  rw [if_neg c1] at hm
  by_cases c2 : d < 90 + l
  · rw [if_pos c2] at hm
    subst hm
    norm_num
    omega
  rw [if_neg c2] at hm
  by_cases c3 : d < 120 + l
  · rw [if_pos c3] at hm
    subst hm
    norm_num
    omega
  rw [if_neg c3] at hm
  by_cases c4 : d < 151 + l
  · rw [if_pos c4] at hm
    subst hm
    norm_num
    omega
  rw [if_neg c4] at hm
  by_cases c5 : d < 181 + l
  · rw [if_pos c5] at hm
    subst hm
    norm_num
    omega
  rw [if_neg c5] at hm
  by_cases c6 : d < 212 + l
  · rw [if_pos c6] at hm
    subst hm
    norm_num
    omega
  rw [if_neg c6] at hm
  by_cases c7 : d < 243 + l
  · rw [if_pos c7] at hm
    subst hm
    norm_num
    omega
  rw [if_neg c7] at hm
  by_cases c8 : d < 273 + l
  · rw [if_pos c8] at hm
    subst hm
    norm_num
    omega
  rw [if_neg c8] at hm
  by_cases c9 : d < 304 + l
  · rw [if_pos c9] at hm
    subst hm
    norm_num
    omega
  rw [if_neg c9] at hm
  by_cases c10 : d < 334 + l
  · rw [if_pos c10] at hm
    subst hm
    norm_num
    omega
  rw [if_neg c10] at hm
  subst hm
  norm_num
  omega

theorem month_date_bounds (t : Int) :
    0 ≤ MonthFromTime t ∧ MonthFromTime t ≤ 11 ∧ 1 ≤ DateFromTime t ∧ DateFromTime t ≤ 31 := by
  have h := day_within_year_bounds t
  have hl : InLeapYear t = 0 ∨ InLeapYear t = 1 := by
    unfold InLeapYear
    split_ifs <;> simp
  exact date_arith (DayWithinYear t) (InLeapYear t) (MonthFromTime t) h.1 h.2 hl rfl

theorem timestamp_to_date_string_valid (tza : Int → Int) (value : ℚ) (negative : Bool)
    (magnitude : ℚ)
    (hproduct : (JSNumber.ofRat value).mul (JSNumber.ofRat 1000) =
      JSNumber.finite negative magnitude)
    (hrange : magnitude ≤ 8640000000000000) :
    timestamp_to_date_string tza value =
      toString (YearFromTime (LocalTime tza (truncate (JSNumber.value negative magnitude)))) ++
        "-" ++
      toString (MonthFromTime (LocalTime tza (truncate (JSNumber.value negative magnitude))) + 1)
        ++ "-" ++
      toString (DateFromTime (LocalTime tza (truncate (JSNumber.value negative magnitude)))) := by
  unfold timestamp_to_date_string
  rw [hproduct]
  simp only [Date_new, hrange, if_true, getFullYear, getMonth, getDate, Option.map, JSInt.add,
    JSInt.toString, String.append_assoc]

/-- C10, as stated, fails: a timestamp beyond the range of `Date` gives no
calendar date, and an instant half a millisecond before the epoch, which lies in
1969, is truncated to the epoch itself. -/
theorem timestamp_out_of_range :
    timestamp_to_date_string utc 8640000000001 = "NaN-NaN-NaN" ∧
    timestamp_to_date_string utc (-1 / 2000) = "1970-1-1" ∧
    YearFromTime (Int.floor ((-1 / 2000 : ℚ) * 1000)) = 1969 :=
  ⟨by decide!, by decide!, by decide!⟩

/-- C10, amended. For every timestamp whose product with `1000.0`, computed in
doubles, is a finite number of magnitude at most 8.64e15, the date string is the
decimal year, the zero-based month plus one (added as a number) and the day of the
month, in local time, of that product truncated toward zero to whole milliseconds,
joined by `-` without padding; the month lies in 1..12 and the day in 1..31. -/
theorem timestamp_to_date_string_spec (tza : Int → Int) (value : ℚ) (negative : Bool)
    (magnitude : ℚ)
    (hproduct : (JSNumber.ofRat value).mul (JSNumber.ofRat 1000) =
      JSNumber.finite negative magnitude)
    (hrange : magnitude ≤ 8640000000000000) :
    timestamp_to_date_string tza value =
      toString (YearFromTime (LocalTime tza (truncate (JSNumber.value negative magnitude)))) ++
        "-" ++
      toString (MonthFromTime (LocalTime tza (truncate (JSNumber.value negative magnitude))) + 1)
        ++ "-" ++
      toString (DateFromTime (LocalTime tza (truncate (JSNumber.value negative magnitude)))) ∧
    1 ≤ MonthFromTime (LocalTime tza (truncate (JSNumber.value negative magnitude))) + 1 ∧
    MonthFromTime (LocalTime tza (truncate (JSNumber.value negative magnitude))) + 1 ≤ 12 ∧
    1 ≤ DateFromTime (LocalTime tza (truncate (JSNumber.value negative magnitude))) ∧
    DateFromTime (LocalTime tza (truncate (JSNumber.value negative magnitude))) ≤ 31 := by
  have hb := month_date_bounds (LocalTime tza (truncate (JSNumber.value negative magnitude)))
  exact ⟨timestamp_to_date_string_valid tza value negative magnitude hproduct hrange,
    by omega, by omega, hb.2.2.1, hb.2.2.2⟩

/-- Witness for C10: the epoch in UTC is `1970-1-1`, and the timestamp
-172800.001, whose product with `1000.0` rounds to -172800001, is `1969-12-29`. -/
theorem timestamp_to_date_string_epoch :
    (JSNumber.ofRat 0).mul (JSNumber.ofRat 1000) = JSNumber.finite false 0 ∧
    timestamp_to_date_string utc 0 = "1970-1-1" ∧
    (JSNumber.ofRat (-172800.001)).mul (JSNumber.ofRat 1000) =
      JSNumber.finite true 172800001 ∧
    timestamp_to_date_string utc (-172800.001) = "1969-12-29" :=
  ⟨by decide!,
   (timestamp_to_date_string_spec utc 0 false 0 (by decide!) (by norm_num)).1.trans
     (by decide!),
   by decide!,
   (timestamp_to_date_string_spec utc (-172800.001) true 172800001 (by decide!)
     (by norm_num)).1.trans (by decide!)⟩

/-! ## The transaction table -/

theorem make_header_row_eq :
    make_header_row =
      Node.element "tr" "" "ttable-row" []
        [Node.element "th" "" "ttable-header" []
           [Node.element "span" "" "color-text1" [] [Node.html "<b>Date</b>"]],
         Node.element "th" "" "ttable-header" []
           [Node.element "span" "" "color-text1" [] [Node.html "<b>Price</b>"]],
         Node.element "th" "" "ttable-header" []
           [Node.element "span" "" "color-text1" [] [Node.html "<b>Vendor</b>"]],
         Node.element "th" "" "ttable-header" []
           [Node.element "span" "" "color-text1" [] [Node.html "<b>Description</b>"]]] := by
  rfl

theorem make_transaction_row_eq (tza : Int → Int) (t : Transaction) :
    make_transaction_row tza t =
      Node.element "tr" t.id "ttable-transaction-row" [("click", "click_transaction_row")]
        [Node.element "td" "" "ttable-cell" []
           [Node.element "span" "" "color-text1" []
              (Node.ofMarkup (timestamp_to_date_string tza t.timestamp))],
         Node.element "td" "" "ttable-cell" []
           [Node.element "span" "" "color-text1" []
              (Node.ofMarkup (float_to_dollar_string t.price))],
         Node.element "td" "" "ttable-cell" []
           [Node.element "span" "" "color-text1" [] (Node.ofMarkup t.vendor)],
         Node.element "td" "" "ttable-cell" []
           [Node.element "span" "" "color-text1" [] (Node.ofMarkup t.description)]] := by
  rfl

theorem createElement_eq (tag : String) :
    Node.createElement tag = Node.element tag "" "" [] [] := rfl

theorem setId_element (t i c : String) (l : List (String × String)) (cs : List Node)
    (v : String) : (Node.element t i c l cs).setId v = Node.element t v c l cs := rfl

theorem setClassName_element (t i c : String) (l : List (String × String)) (cs : List Node)
    (v : String) : (Node.element t i c l cs).setClassName v = Node.element t i v l cs := rfl

theorem appendClassName_element (t i c : String) (l : List (String × String))
    (cs : List Node) (v : String) :
    (Node.element t i c l cs).appendClassName v = Node.element t i (c ++ v) l cs := rfl

theorem setInnerHTML_element (t i c : String) (l : List (String × String)) (cs : List Node)
    (v : String) :
    (Node.element t i c l cs).setInnerHTML v = Node.element t i c l (Node.ofMarkup v) := rfl

theorem appendChild_element (t i c : String) (l : List (String × String)) (cs : List Node)
    (n : Node) : (Node.element t i c l cs).appendChild n = Node.element t i c l (cs ++ [n]) :=
  rfl

theorem foldl_appendChild (f : Transaction → Node) (l : List Transaction)
    (tag id className : String) (ls : List (String × String)) (cs : List Node) :
    l.foldl (fun table t => Node.appendChild table (f t)) (Node.element tag id className ls cs) =
      Node.element tag id className ls (cs ++ l.map f) := by
  induction l generalizing cs with
  | nil => simp
  | cons t l ih =>
    rw [List.foldl_cons, appendChild_element, ih]
    simp

/-- The class names of a transaction table. -/
theorem make_bclass_history_nonempty (tza : Int → Int) (bclass : BClass)
    (h : bclass.history ≠ []) :
    make_bclass_history tza bclass =
      Node.element "div" "" "ttable-container" []
        [Node.element "table" ""
          (if bclass_is_expense bclass then "ttable" ++ " color-expense3"
           else if bclass_is_income bclass then "ttable" ++ " color-income3" else "ttable") []
          (make_header_row ::
            (Array_sort compare_timestamp bclass.history).map (make_transaction_row tza))] := by
  have hl : ¬ bclass.history.length = 0 := fun e => h (List.length_eq_zero.mp e)
  unfold make_bclass_history
  rw [if_neg hl]
  simp only [createElement_eq, setClassName_element]
  cases he : bclass_is_expense bclass <;> cases hi : bclass_is_income bclass <;>
    simp [appendClassName_element, appendChild_element, foldl_appendChild]

theorem make_bclass_history_empty (tza : Int → Int) (bclass : BClass)
    (h : bclass.history = []) :
    make_bclass_history tza bclass = Node.element "p" "" "" [] [] := by
  unfold make_bclass_history
  rw [h]
  rfl

theorem array_sort_timestamp_perm (l : List Transaction) :
    (Array_sort compare_timestamp l).Perm l :=
  List.perm_insertionSort _ l

theorem array_sort_timestamp_sorted (l : List Transaction) :
    (Array_sort compare_timestamp l).Sorted (fun t1 t2 => t1.timestamp ≥ t2.timestamp) := by
  have key : ∀ a b : Transaction, compare_timestamp a b ≤ 0 ↔ a.timestamp ≥ b.timestamp := by
    intro a b
    unfold compare_timestamp
    constructor <;> intro h <;> linarith
  haveI : IsTotal Transaction (fun a b => compare_timestamp a b ≤ 0) :=
    ⟨fun a b => by
      rw [key, key]
      exact le_total _ _⟩
  haveI : IsTrans Transaction (fun a b => compare_timestamp a b ≤ 0) :=
    ⟨fun a b c hab hbc => by
      rw [key] at *
      exact le_trans hbc hab⟩
  have hs := List.sorted_insertionSort (fun a b : Transaction => compare_timestamp a b ≤ 0) l
  exact List.Pairwise.imp (fun {a b} hab => (key a b).mp hab) hs

/-- C7. For a non-empty history the table is one header row with the cells `Date`,
`Price`, `Vendor`, `Description` followed by one row per transaction carrying the
transaction's id, the rows being a permutation of the history in descending
timestamp order; timestamps 5, 1, 3 come out as 5, 3, 1; for an empty history
there is no table, only an empty paragraph. -/
theorem make_bclass_history_table (tza : Int → Int) (bclass : BClass)
    (h : bclass.history ≠ []) :
    (∃ (rows : List Transaction) (className : String),
      rows.Perm bclass.history ∧
      rows.Sorted (fun t1 t2 => t1.timestamp ≥ t2.timestamp) ∧
      make_bclass_history tza bclass =
        Node.element "div" "" "ttable-container" []
          [Node.element "table" "" className []
            (Node.element "tr" "" "ttable-row" []
              [Node.element "th" "" "ttable-header" []
                 [Node.element "span" "" "color-text1" [] [Node.html "<b>Date</b>"]],
               Node.element "th" "" "ttable-header" []
                 [Node.element "span" "" "color-text1" [] [Node.html "<b>Price</b>"]],
               Node.element "th" "" "ttable-header" []
                 [Node.element "span" "" "color-text1" [] [Node.html "<b>Vendor</b>"]],
               Node.element "th" "" "ttable-header" []
                 [Node.element "span" "" "color-text1" [] [Node.html "<b>Description</b>"]]] ::
             rows.map (fun t =>
               Node.element "tr" t.id "ttable-transaction-row"
                 [("click", "click_transaction_row")]
                 [Node.element "td" "" "ttable-cell" []
                    [Node.element "span" "" "color-text1" []
                       (Node.ofMarkup (timestamp_to_date_string tza t.timestamp))],
                  Node.element "td" "" "ttable-cell" []
                    [Node.element "span" "" "color-text1" []
                       (Node.ofMarkup (float_to_dollar_string t.price))],
                  Node.element "td" "" "ttable-cell" []
                    [Node.element "span" "" "color-text1" [] (Node.ofMarkup t.vendor)],
                  Node.element "td" "" "ttable-cell" []
                    [Node.element "span" "" "color-text1" []
                       (Node.ofMarkup t.description)]]))]) ∧
    (∀ a b c : Transaction, a.timestamp = 5 → b.timestamp = 1 → c.timestamp = 3 →
      Array_sort compare_timestamp [a, b, c] = [a, c, b]) ∧
    make_bclass_history tza { bclass with history := [] } = Node.element "p" "" "" [] [] := by
  refine ⟨⟨Array_sort compare_timestamp bclass.history,
    (if bclass_is_expense bclass then "ttable" ++ " color-expense3"
     else if bclass_is_income bclass then "ttable" ++ " color-income3" else "ttable"),
    array_sort_timestamp_perm _, array_sort_timestamp_sorted _, ?_⟩, ?_,
    make_bclass_history_empty tza _ rfl⟩
  · rw [make_bclass_history_nonempty tza bclass h, make_header_row_eq]
    rfl
  · intro a b c ha hb hc
    simp [Array_sort, List.insertionSort, List.orderedInsert, compare_timestamp, ha, hb, hc]
    norm_num

/-- Witness for C7: the table of a class whose transactions have the timestamps
5, 1 and 3 lists them in the order 5, 3, 1. -/
theorem make_bclass_history_groceries :
    groceries.history ≠ [] ∧
    (Array_sort compare_timestamp groceries.history).map (fun t => t.timestamp) = [5, 3, 1] ∧
    make_bclass_history utc { groceries with history := [] } = Node.element "p" "" "" [] [] :=
  ⟨by decide, by decide!, (make_bclass_history_table utc groceries (by decide)).2.2⟩


/-! ## Refreshing a class that is already rendered -/

/-- C6. When the document already holds an element with the class's id, one with
its `_btn` id and one with its `_content` id, refreshing the class changes nothing:
the document, the console and the calls made to `collapsible_init` stay as they
were. -/
theorem budget_class_refresh_existing (tza : Int → Int) (s : Page) (bclass : BClass)
    (hdiv : (s.document.getElementById bclass.id).isSome)
    (hbtn : (s.document.getElementById (bclass.id ++ "_btn")).isSome)
    (hcontent : (s.document.getElementById (bclass.id ++ "_content")).isSome) :
    budget_class_refresh tza s bclass = s := by
  obtain ⟨p1, h1⟩ := Option.isSome_iff_exists.mp hdiv
  obtain ⟨p2, h2⟩ := Option.isSome_iff_exists.mp hbtn
  obtain ⟨p3, h3⟩ := Option.isSome_iff_exists.mp hcontent
  simp only [budget_class_refresh, budget_class_refresh_div, budget_class_refresh_button,
    budget_class_refresh_content, h1, h2, h3]

/-- Witness for C6: refreshing the example class a second time changes nothing,
and its button was passed to `collapsible_init` once. -/
theorem budget_class_refresh_rent_twice :
    budget_class_refresh utc (budget_class_refresh utc initial_page rent) rent =
      budget_class_refresh utc initial_page rent ∧
    (budget_class_refresh utc (budget_class_refresh utc initial_page rent)
      rent).collapsible_init_calls = ["c1_btn"] :=
  ⟨budget_class_refresh_existing utc _ rent (by decide!) (by decide!) (by decide!),
   by decide!⟩


/-! ## Initialization -/

/-- C1 fails on the code: whatever the `success` flag of an envelope that carries a
payload, `ui_init` sorts the payload and runs the three refresh functions; for the
failure envelope of the example the summary and the panel of the class are
rendered, and the only line logged is the one written by `retrieve_data`. -/
theorem ui_init_ignores_success :
    (∀ (tza : Int → Int) (localeCompare : String → String → Int) (s : Page)
       (message : String) (bclasses : List BClass),
      ui_init tza localeCompare s
          (.object { success := false, message := message, payload := some bclasses }) =
        .returned
          (budget_classes_refresh tza
            (menu_refresh
              (summary_refresh (s.log ("failed to retrieve content (" ++ message ++ ")."))
                (Array_sort (fun c1 c2 => localeCompare c1.name c2.name) bclasses))
              (Array_sort (fun c1 c2 => localeCompare c1.name c2.name) bclasses))
            (Array_sort (fun c1 c2 => localeCompare c1.name c2.name) bclasses)) ()) ∧
    (ui_init utc compare_code_units initial_page failed_with_payload).page.console =
      ["failed to retrieve content (database offline)."] ∧
    (ui_init utc compare_code_units initial_page
      failed_with_payload).page.document.budget_summary.length = 1 ∧
    (ui_init utc compare_code_units initial_page
      failed_with_payload).page.document.bclass_expenses.length = 1 ∧
    (ui_init utc compare_code_units initial_page
      failed_with_payload).page.collapsible_init_calls = ["c1_btn"] :=
  ⟨fun _ _ _ _ _ => rfl, by decide!, by decide!, by decide!, by decide!⟩


/-! ## Refreshing does not depend on what was logged -/

theorem budget_class_refresh_div_frame (s : Page) (l k : List String) (bclass : BClass) :
    (budget_class_refresh_div ⟨s.document, l, k⟩ bclass).1.document =
      (budget_class_refresh_div s bclass).1.document ∧
    (budget_class_refresh_div ⟨s.document, l, k⟩ bclass).2 =
      (budget_class_refresh_div s bclass).2 := by
  unfold budget_class_refresh_div
  simp only
  cases s.document.getElementById bclass.id <;>
    cases bclass_is_expense bclass <;> cases bclass_is_income bclass <;> simp [Page.log]

theorem budget_class_refresh_button_frame (s : Page) (l k : List String) (h : Handle)
    (bclass : BClass) :
    (budget_class_refresh_button ⟨s.document, l, k⟩ h bclass).1.document =
      (budget_class_refresh_button s h bclass).1.document ∧
    (budget_class_refresh_button ⟨s.document, l, k⟩ h bclass).2 =
      (budget_class_refresh_button s h bclass).2 := by
  unfold budget_class_refresh_button
  simp only
  cases s.document.getElementById (bclass.id ++ "_btn") <;> cases h <;> simp [Page.appendChild]

theorem budget_class_refresh_content_frame (tza : Int → Int) (s : Page) (l k : List String)
    (h : Handle) (bclass : BClass) :
    (budget_class_refresh_content tza ⟨s.document, l, k⟩ h bclass).document =
      (budget_class_refresh_content tza s h bclass).document := by
  unfold budget_class_refresh_content
  simp only
  cases s.document.getElementById (bclass.id ++ "_content") <;> cases h <;>
    simp [Page.appendChild, Page.collapsible_init]

theorem budget_class_refresh_document_congr (tza : Int → Int) (s s' : Page) (bclass : BClass)
    (h : s.document = s'.document) :
    (budget_class_refresh tza s bclass).document =
      (budget_class_refresh tza s' bclass).document := by
  obtain ⟨d, c, k⟩ := s
  obtain ⟨d', c', k'⟩ := s'
  simp only at h
  subst h
  unfold budget_class_refresh
  simp only
  have h1 := budget_class_refresh_div_frame ⟨d, c, k⟩ c' k' bclass
  simp only at h1
  generalize budget_class_refresh_div ⟨d, c, k⟩ bclass = r1 at h1 ⊢
  generalize budget_class_refresh_div ⟨d, c', k'⟩ bclass = r1' at h1 ⊢
  obtain ⟨⟨d1, c1, k1⟩, g1⟩ := r1
  obtain ⟨⟨d1', c1', k1'⟩, g1'⟩ := r1'
  simp only at h1
  obtain ⟨e1, e2⟩ := h1
  subst e1 e2
  have h2 := budget_class_refresh_button_frame ⟨d1', c1, k1⟩ c1' k1' g1' bclass
  simp only at h2
  generalize budget_class_refresh_button ⟨d1', c1, k1⟩ g1' bclass = r2 at h2 ⊢
  generalize budget_class_refresh_button ⟨d1', c1', k1'⟩ g1' bclass = r2' at h2 ⊢
  obtain ⟨⟨d2, c2, k2⟩, g2⟩ := r2
  obtain ⟨⟨d2', c2', k2'⟩, g2'⟩ := r2'
  simp only at h2
  obtain ⟨e1, e2⟩ := h2
  subst e1 e2
  exact (budget_class_refresh_content_frame tza ⟨d2', c2, k2⟩ c2' k2' g2' bclass).symm

theorem budget_classes_refresh_document_congr (tza : Int → Int) (bclasses : List BClass)
    (s s' : Page) (h : s.document = s'.document) :
    (budget_classes_refresh tza s bclasses).document =
      (budget_classes_refresh tza s' bclasses).document := by
  induction bclasses generalizing s s' with
  | nil => exact h
  | cons c rest ih =>
    exact ih _ _ (budget_class_refresh_document_congr tza s s' c h)

theorem budget_class_refresh_console (tza : Int → Int) (s : Page) (bclass : BClass) :
    ∃ extra, (budget_class_refresh tza s bclass).console = s.console ++ extra := by
  unfold budget_class_refresh budget_class_refresh_div budget_class_refresh_button
    budget_class_refresh_content
  simp only
  cases s.document.getElementById bclass.id <;>
    cases bclass_is_expense bclass <;> cases bclass_is_income bclass <;>
    simp only [Page.log, Bool.false_eq_true, if_true, if_false] <;>
    split <;> split <;>
    simp [Page.appendChild, Page.collapsible_init]

theorem budget_classes_refresh_console (tza : Int → Int) (bclasses : List BClass) (s : Page) :
    ∃ extra, (budget_classes_refresh tza s bclasses).console = s.console ++ extra := by
  induction bclasses generalizing s with
  | nil => exact ⟨[], by simp [budget_classes_refresh]⟩
  | cons c rest ih =>
    obtain ⟨e1, h1⟩ := budget_class_refresh_console tza s c
    obtain ⟨e2, h2⟩ := ih (budget_class_refresh tza s c)
    refine ⟨e1 ++ e2, ?_⟩
    have : budget_classes_refresh tza s (c :: rest) =
        budget_classes_refresh tza (budget_class_refresh tza s c) rest := rfl
    rw [this, h2, h1, List.append_assoc]

/-! ## Looking elements up by id -/

mutual
theorem Node.find_eq_none_iff (i : String) : ∀ n : Node, n.find i = none ↔ i ∉ n.ids
  | .html _ => by simp [Node.find, Node.ids]
  | .element _ id _ _ cs => by
    have ih := findList_eq_none_iff i 0 cs
    by_cases h : id = i
    · simp [Node.find, Node.ids, h]
    · have h' : ¬ i = id := fun e => h e.symm
      simp [Node.find, Node.ids, h, h', ih]
theorem findList_eq_none_iff (i : String) :
    ∀ (k : Nat) (ns : List Node), findList i k ns = none ↔ i ∉ idsList ns
  | _, [] => by simp [findList, idsList]
  | k, n :: ns => by
    have ih1 := Node.find_eq_none_iff i n
    have ih2 := findList_eq_none_iff i (k + 1) ns
    cases hn : n.find i with
    | none =>
      rw [hn] at ih1
      simp [findList, idsList, hn, ih2, ih1.mp rfl]
    | some p =>
      have : i ∈ n.ids := by
        by_contra hc
        rw [ih1.mpr hc] at hn
        cases hn
      simp [findList, idsList, hn, this]
end

theorem idsList_append (a b : List Node) : idsList (a ++ b) = idsList a ++ idsList b := by
  induction a with
  | nil => simp [idsList]
  | cons n ns ih => simp [idsList, ih]

theorem idsList_singleton (n : Node) : idsList [n] = n.ids := by
  simp [idsList]

theorem idsList_ofMarkup (s : String) : idsList (Node.ofMarkup s) = [] := by
  unfold Node.ofMarkup
  split <;> simp [idsList, Node.ids]

theorem Document.mem_ids (d : Document) (i : String) :
    i ∈ d.ids ↔
      i = "budget_summary" ∨ i ∈ idsList d.budget_summary ∨
      i = "bclass_expenses" ∨ i ∈ idsList d.bclass_expenses ∨
      i = "bclass_income" ∨ i ∈ idsList d.bclass_income := by
  simp [Document.ids, Document.roots, idsList, Node.ids]

theorem getElementById_eq_none_iff (d : Document) (i : String) :
    d.getElementById i = none ↔ i = "" ∨ i ∉ d.ids := by
  unfold Document.getElementById
  by_cases h : i = ""
  · simp [h]
  · simp only [h, if_false, false_or]
    exact findList_eq_none_iff i 0 d.roots

/-! ## Appending to the document -/

theorem modify_length_append {α : Type} (f : α → α) (l : List α) (a : α) :
    List.modify f l.length (l ++ [a]) = l ++ [f a] := by
  induction l with
  | nil => rfl
  | cons x xs ih =>
    show x :: List.modify f xs.length (xs ++ [a]) = x :: (xs ++ [f a])
    rw [ih]

theorem modifyChildrenAt_last (f : List Node → List Node) (cs : List Node)
    (t i c : String) (l : List (String × String)) (ch : List Node) :
    modifyChildrenAt f [cs.length] (cs ++ [Node.element t i c l ch]) =
      cs ++ [Node.element t i c l (f ch)] := by
  simp [modifyChildrenAt, modify_length_append]

theorem appendChild_expense_container (d : Document) (n : Node) :
    d.appendChild bclass_expense_container n =
      { d with bclass_expenses := d.bclass_expenses ++ [n] } := rfl

theorem appendChild_income_container (d : Document) (n : Node) :
    d.appendChild bclass_income_container n =
      { d with bclass_income := d.bclass_income ++ [n] } := rfl

theorem appendChild_expense_last (d : Document) (cs : List Node) (t i c : String)
    (l : List (String × String)) (ch : List Node) (n : Node) :
    ({ d with bclass_expenses := cs ++ [Node.element t i c l ch] } : Document).appendChild
        (Document.childPath bclass_expense_container cs.length) n =
      { d with bclass_expenses := cs ++ [Node.element t i c l (ch ++ [n])] } := by
  simp [Document.appendChild, Document.childPath, bclass_expense_container,
    Document.modifyChildrenAt, modifyChildrenAt_last]

theorem appendChild_income_last (d : Document) (cs : List Node) (t i c : String)
    (l : List (String × String)) (ch : List Node) (n : Node) :
    ({ d with bclass_income := cs ++ [Node.element t i c l ch] } : Document).appendChild
        (Document.childPath bclass_income_container cs.length) n =
      { d with bclass_income := cs ++ [Node.element t i c l (ch ++ [n])] } := by
  simp [Document.appendChild, Document.childPath, bclass_income_container,
    Document.modifyChildrenAt, modifyChildrenAt_last]

/-! ## The ids derived from a class id -/

theorem string_eq_iff_data (a b : String) : a = b ↔ a.data = b.data :=
  ⟨fun h => by rw [h], fun h => String.ext h⟩

theorem append_btn_ne_self (x : String) : x ++ "_btn" ≠ x := by
  intro h
  have hl := congrArg String.length h
  rw [String.length_append] at hl
  have : ("_btn" : String).length = 4 := rfl
  omega

theorem append_content_ne_self (x : String) : x ++ "_content" ≠ x := by
  intro h
  have hl := congrArg String.length h
  rw [String.length_append] at hl
  have : ("_content" : String).length = 8 := rfl
  omega

theorem append_btn_ne_empty (x : String) : x ++ "_btn" ≠ "" :=
  append_ne_empty_right x "_btn" (by decide)

theorem append_content_ne_empty (x : String) : x ++ "_content" ≠ "" :=
  append_ne_empty_right x "_content" (by decide)

theorem append_right_cancel (x y s : String) (h : x ++ s = y ++ s) : x = y := by
  rw [string_eq_iff_data] at h ⊢
  simpa [String.data_append] using h

theorem last_of_append_eq (a b : List Char) (p q : List Char) (c e : Char)
    (h : a ++ (p ++ [c]) = b ++ (q ++ [e])) : c = e := by
  have h' := congrArg List.reverse h
  simp at h'
  exact h'.1

theorem append_btn_ne_append_content (x y : String) : x ++ "_btn" ≠ y ++ "_content" := by
  intro h
  rw [string_eq_iff_data, String.data_append, String.data_append] at h
  have := last_of_append_eq x.data y.data ['_', 'b', 't'] ['_', 'c', 'o', 'n', 't', 'e', 'n']
    'n' 't' h
  revert this
  decide

theorem append_btn_not_container (x : String) :
    x ++ "_btn" ≠ "budget_summary" ∧ x ++ "_btn" ≠ "bclass_expenses" ∧
    x ++ "_btn" ≠ "bclass_income" := by
  refine ⟨?_, ?_, ?_⟩ <;> intro h <;>
    rw [string_eq_iff_data, String.data_append] at h
  · have := last_of_append_eq x.data [] ['_', 'b', 't']
      ['b', 'u', 'd', 'g', 'e', 't', '_', 's', 'u', 'm', 'm', 'a', 'r'] 'n' 'y' h
    revert this
    decide
  · have := last_of_append_eq x.data [] ['_', 'b', 't']
      ['b', 'c', 'l', 'a', 's', 's', '_', 'e', 'x', 'p', 'e', 'n', 's', 'e'] 'n' 's' h
    revert this
    decide
  · have := last_of_append_eq x.data [] ['_', 'b', 't']
      ['b', 'c', 'l', 'a', 's', 's', '_', 'i', 'n', 'c', 'o', 'm'] 'n' 'e' h
    revert this
    decide

theorem append_content_not_container (x : String) :
    x ++ "_content" ≠ "budget_summary" ∧ x ++ "_content" ≠ "bclass_expenses" ∧
    x ++ "_content" ≠ "bclass_income" := by
  refine ⟨?_, ?_, ?_⟩ <;> intro h <;>
    rw [string_eq_iff_data, String.data_append] at h
  · have := last_of_append_eq x.data [] ['_', 'c', 'o', 'n', 't', 'e', 'n']
      ['b', 'u', 'd', 'g', 'e', 't', '_', 's', 'u', 'm', 'm', 'a', 'r'] 't' 'y' h
    revert this
    decide
  · have := last_of_append_eq x.data [] ['_', 'c', 'o', 'n', 't', 'e', 'n']
      ['b', 'c', 'l', 'a', 's', 's', '_', 'e', 'x', 'p', 'e', 'n', 's', 'e'] 't' 's' h
    revert this
    decide
  · have := last_of_append_eq x.data [] ['_', 'c', 'o', 'n', 't', 'e', 'n']
      ['b', 'c', 'l', 'a', 's', 's', '_', 'i', 'n', 'c', 'o', 'm'] 't' 'e' h
    revert this
    decide

/-! ## The panel of a class -/

theorem make_collapsible_button_eq (id text rtext classes rclasses : String) :
    make_collapsible_button id text rtext classes rclasses =
      Node.element "button" id ("collapsible-button " ++ classes) []
        (Node.ofMarkup text ++
          [Node.element "span" "" ("collapsible-button-indicator " ++ rclasses) []
            (Node.ofMarkup rtext)]) := rfl

theorem bclass_panel_eq (tza : Int → Int) (bclass : BClass) :
    bclass_panel tza bclass =
      Node.element "div" bclass.id "" []
        [Node.element "button" (bclass.id ++ "_btn")
           ("collapsible-button " ++
             (if bclass_is_expense bclass then "font-main color-expense1"
              else if bclass_is_income bclass then "font-main color-income1"
              else "font-main")) []
           (Node.ofMarkup bclass.name ++
             [Node.element "span" ""
               ("collapsible-button-indicator " ++
                 (if bclass_is_expense bclass then "font-main color-expense2"
                  else if bclass_is_income bclass then "font-main color-income2"
                  else "font-main")) []
               [Node.html (float_to_dollar_string (bclass_sum bclass))]]),
         Node.element "div" (bclass.id ++ "_content") "collapsible-content" []
           [Node.element "div" "" "button-container" []
              [Node.element "p" "" "" [] (Node.ofMarkup bclass.description)],
            make_bclass_history tza bclass]] := by
  have h := ofMarkup_of_ne (float_to_dollar_string_ne_empty (bclass_sum bclass))
  unfold bclass_panel
  cases he : bclass_is_expense bclass <;> cases hi : bclass_is_income bclass <;>
    simp [make_collapsible_button_eq, make_collapsible_content, make_bclass_menu,
      createElement_eq, setId_element, setClassName_element, setInnerHTML_element,
      appendChild_element, h]

theorem mem_idsList_rows (tza : Int → Int) (l : List Transaction) (i : String)
    (h : i ∈ idsList (l.map (make_transaction_row tza))) :
    i = "" ∨ ∃ t ∈ l, t.id = i := by
  induction l with
  | nil => simp [idsList] at h
  | cons t ts ih =>
    rw [List.map_cons, idsList, List.mem_append] at h
    rcases h with h | h
    · rw [make_transaction_row_eq] at h
      simp [Node.ids, idsList, idsList_ofMarkup] at h
      rcases h with h | h
      · exact Or.inr ⟨t, List.mem_cons_self _ _, h.symm⟩
      · exact Or.inl h
    · rcases ih h with h | ⟨u, hu, e⟩
      · exact Or.inl h
      · exact Or.inr ⟨u, List.mem_cons_of_mem _ hu, e⟩

theorem mem_ids_history (tza : Int → Int) (bclass : BClass) (i : String)
    (h : i ∈ (make_bclass_history tza bclass).ids) :
    i = "" ∨ ∃ t ∈ bclass.history, t.id = i := by
  by_cases hh : bclass.history = []
  · rw [make_bclass_history_empty tza bclass hh] at h
    simp [Node.ids, idsList] at h
    exact Or.inl h
  · rw [make_bclass_history_nonempty tza bclass hh, make_header_row_eq] at h
    simp only [Node.ids, idsList, List.mem_cons, List.mem_append, List.append_nil,
      List.not_mem_nil, or_false] at h
    have hrows : i = "" ∨ i ∈ idsList ((Array_sort compare_timestamp bclass.history).map
        (make_transaction_row tza)) := by
      rcases h with h | h | (h | (h | h) | (h | h) | (h | h) | h | h) | h
      all_goals first | exact Or.inl h | exact Or.inr h
    rcases hrows with h | h
    · exact Or.inl h
    · rcases mem_idsList_rows tza _ i h with h | ⟨t, ht, e⟩
      · exact Or.inl h
      · exact Or.inr ⟨t, (array_sort_timestamp_perm bclass.history).mem_iff.mp ht, e⟩

theorem mem_ids_panel (tza : Int → Int) (bclass : BClass) (i : String)
    (h : i ∈ (bclass_panel tza bclass).ids) :
    i = "" ∨ i = bclass.id ∨ i = bclass.id ++ "_btn" ∨ i = bclass.id ++ "_content" ∨
      ∃ t ∈ bclass.history, t.id = i := by
  rw [bclass_panel_eq] at h
  simp only [Node.ids, idsList, idsList_append, idsList_ofMarkup, List.mem_cons,
    List.mem_append, List.append_nil, List.nil_append, List.not_mem_nil, or_false,
    false_or] at h
  rcases h with h | (h | h) | h | (h | h) | h
  · exact Or.inr (Or.inl h)
  · exact Or.inr (Or.inr (Or.inl h))
  · exact Or.inl h
  · exact Or.inr (Or.inr (Or.inr (Or.inl h)))
  · exact Or.inl h
  · exact Or.inl h
  · rcases mem_ids_history tza bclass i h with h | h
    · exact Or.inl h
    · exact Or.inr (Or.inr (Or.inr (Or.inr h)))

/-! ## Refreshing a class that is not rendered yet -/

theorem getElementById_append_expense (d : Document) (n : Node) (i : String) :
    ({ d with bclass_expenses := d.bclass_expenses ++ [n] } : Document).getElementById i = none ↔
      d.getElementById i = none ∧ (i = "" ∨ i ∉ n.ids) := by
  simp only [getElementById_eq_none_iff, Document.mem_ids, idsList_append, idsList_singleton,
    List.mem_append]
  tauto

theorem getElementById_append_income (d : Document) (n : Node) (i : String) :
    ({ d with bclass_income := d.bclass_income ++ [n] } : Document).getElementById i = none ↔
      d.getElementById i = none ∧ (i = "" ∨ i ∉ n.ids) := by
  simp only [getElementById_eq_none_iff, Document.mem_ids, idsList_append, idsList_singleton,
    List.mem_append]
  tauto

theorem budget_class_refresh_fresh_expense (tza : Int → Int) (s : Page) (bclass : BClass)
    (he : bclass_is_expense bclass = true)
    (h1 : s.document.getElementById bclass.id = none)
    (h2 : s.document.getElementById (bclass.id ++ "_btn") = none)
    (h3 : s.document.getElementById (bclass.id ++ "_content") = none) :
    budget_class_refresh tza s bclass =
      { document :=
          { s.document with
            bclass_expenses := s.document.bclass_expenses ++ [bclass_panel tza bclass] },
        console := s.console,
        collapsible_init_calls := s.collapsible_init_calls ++ [bclass.id ++ "_btn"] } := by
  obtain ⟨d, lg, ks⟩ := s
  simp only at h1 h2 h3 ⊢
  have e1 : budget_class_refresh_div ⟨d, lg, ks⟩ bclass =
      (⟨{ d with bclass_expenses := d.bclass_expenses ++ [Node.element "div" bclass.id "" [] []] },
          lg, ks⟩,
        Handle.attached (Document.childPath bclass_expense_container d.bclass_expenses.length)) := by
    simp [budget_class_refresh_div, h1, he, appendChild_expense_container, createElement_eq,
      setId_element]
  have hb := (getElementById_append_expense d (Node.element "div" bclass.id "" [] [])
    (bclass.id ++ "_btn")).mpr
      ⟨h2, Or.inr (by simp [Node.ids, idsList, append_btn_ne_self])⟩
  have e2 : ∀ btn : Node, Page.appendChild
      ⟨{ d with bclass_expenses := d.bclass_expenses ++ [Node.element "div" bclass.id "" [] []] },
          lg, ks⟩
      (Handle.attached (Document.childPath bclass_expense_container d.bclass_expenses.length))
      btn =
      (⟨{ d with bclass_expenses :=
            d.bclass_expenses ++ [Node.element "div" bclass.id "" [] [btn]] }, lg, ks⟩,
        Handle.attached (Document.childPath bclass_expense_container d.bclass_expenses.length)) := by
    intro btn
    simp only [Page.appendChild]
    rw [appendChild_expense_last]
    rfl
  have e3 : ∀ btn content : Node, Page.appendChild
      ⟨{ d with bclass_expenses :=
            d.bclass_expenses ++ [Node.element "div" bclass.id "" [] [btn]] }, lg, ks⟩
      (Handle.attached (Document.childPath bclass_expense_container d.bclass_expenses.length))
      content =
      (⟨{ d with bclass_expenses :=
            d.bclass_expenses ++ [Node.element "div" bclass.id "" [] [btn, content]] }, lg, ks⟩,
        Handle.attached (Document.childPath bclass_expense_container d.bclass_expenses.length)) := by
    intro btn content
    simp only [Page.appendChild]
    rw [appendChild_expense_last]
    rfl
  have hc : ∀ (text rtext classes rclasses : String),
      ({ d with bclass_expenses := d.bclass_expenses ++
        [Node.element "div" bclass.id "" []
          [make_collapsible_button (bclass.id ++ "_btn") text rtext classes rclasses]] }
        : Document).getElementById (bclass.id ++ "_content") = none := by
    intro text rtext classes rclasses
    refine (getElementById_append_expense d _ _).mpr ⟨h3, Or.inr ?_⟩
    simp [make_collapsible_button_eq, Node.ids, idsList, idsList_append, idsList_ofMarkup,
      append_content_ne_self, append_content_ne_empty,
      (append_btn_ne_append_content bclass.id bclass.id).symm]
  unfold budget_class_refresh
  simp only [e1]
  simp only [budget_class_refresh_button, hb, he, if_true, e2]
  simp only [budget_class_refresh_content, hc, e3, Page.collapsible_init]
  simp [bclass_panel, he, createElement_eq, setId_element, appendChild_element]

theorem budget_class_refresh_fresh_income (tza : Int → Int) (s : Page) (bclass : BClass)
    (he : bclass_is_expense bclass = false) (hi : bclass_is_income bclass = true)
    (h1 : s.document.getElementById bclass.id = none)
    (h2 : s.document.getElementById (bclass.id ++ "_btn") = none)
    (h3 : s.document.getElementById (bclass.id ++ "_content") = none) :
    budget_class_refresh tza s bclass =
      { document :=
          { s.document with
            bclass_income := s.document.bclass_income ++ [bclass_panel tza bclass] },
        console := s.console,
        collapsible_init_calls := s.collapsible_init_calls ++ [bclass.id ++ "_btn"] } := by
  obtain ⟨d, lg, ks⟩ := s
  simp only at h1 h2 h3 ⊢
  have e1 : budget_class_refresh_div ⟨d, lg, ks⟩ bclass =
      (⟨{ d with bclass_income := d.bclass_income ++ [Node.element "div" bclass.id "" [] []] },
          lg, ks⟩,
        Handle.attached (Document.childPath bclass_income_container d.bclass_income.length)) := by
    simp [budget_class_refresh_div, h1, he, hi, appendChild_income_container, createElement_eq,
      setId_element]
  have hb := (getElementById_append_income d (Node.element "div" bclass.id "" [] [])
    (bclass.id ++ "_btn")).mpr
      ⟨h2, Or.inr (by simp [Node.ids, idsList, append_btn_ne_self])⟩
  have e2 : ∀ btn : Node, Page.appendChild
      ⟨{ d with bclass_income := d.bclass_income ++ [Node.element "div" bclass.id "" [] []] },
          lg, ks⟩
      (Handle.attached (Document.childPath bclass_income_container d.bclass_income.length))
      btn =
      (⟨{ d with bclass_income :=
            d.bclass_income ++ [Node.element "div" bclass.id "" [] [btn]] }, lg, ks⟩,
        Handle.attached (Document.childPath bclass_income_container d.bclass_income.length)) := by
    intro btn
    simp only [Page.appendChild]
    rw [appendChild_income_last]
    rfl
  have e3 : ∀ btn content : Node, Page.appendChild
      ⟨{ d with bclass_income :=
            d.bclass_income ++ [Node.element "div" bclass.id "" [] [btn]] }, lg, ks⟩
      (Handle.attached (Document.childPath bclass_income_container d.bclass_income.length))
      content =
      (⟨{ d with bclass_income :=
            d.bclass_income ++ [Node.element "div" bclass.id "" [] [btn, content]] }, lg, ks⟩,
        Handle.attached (Document.childPath bclass_income_container d.bclass_income.length)) := by
    intro btn content
    simp only [Page.appendChild]
    rw [appendChild_income_last]
    rfl
  have hc : ∀ (text rtext classes rclasses : String),
      ({ d with bclass_income := d.bclass_income ++
        [Node.element "div" bclass.id "" []
          [make_collapsible_button (bclass.id ++ "_btn") text rtext classes rclasses]] }
        : Document).getElementById (bclass.id ++ "_content") = none := by
    intro text rtext classes rclasses
    refine (getElementById_append_income d _ _).mpr ⟨h3, Or.inr ?_⟩
    simp [make_collapsible_button_eq, Node.ids, idsList, idsList_append, idsList_ofMarkup,
      append_content_ne_self, append_content_ne_empty,
      (append_btn_ne_append_content bclass.id bclass.id).symm]
  unfold budget_class_refresh
  simp only [e1]
  simp only [budget_class_refresh_button, hb, he, hi, if_true, if_false, Bool.false_eq_true, e2]
  simp only [budget_class_refresh_content, hc, e3, Page.collapsible_init]
  simp [bclass_panel, he, hi, createElement_eq, setId_element, appendChild_element]

theorem budget_class_refresh_unknown (tza : Int → Int) (s : Page) (bclass : BClass)
    (he : bclass_is_expense bclass = false) (hi : bclass_is_income bclass = false)
    (h1 : s.document.getElementById bclass.id = none) :
    (budget_class_refresh tza s bclass).document = s.document ∧
    (budget_class_refresh tza s bclass).console =
      s.console ++ ["Found budget class of unknown type: " ++ bclass.id] := by
  obtain ⟨d, lg, ks⟩ := s
  simp only at h1 ⊢
  have e1 : budget_class_refresh_div ⟨d, lg, ks⟩ bclass =
      (⟨d, lg ++ ["Found budget class of unknown type: " ++ bclass.id], ks⟩,
        Handle.detached (Node.element "div" bclass.id "" [] [])) := by
    simp [budget_class_refresh_div, h1, he, hi, Page.log, createElement_eq, setId_element]
  unfold budget_class_refresh
  simp only [e1]
  unfold budget_class_refresh_button budget_class_refresh_content
  simp only
  cases d.getElementById (bclass.id ++ "_btn") <;>
    simp only [Page.appendChild] <;>
    split <;>
    simp [Page.collapsible_init]

theorem budget_classes_refresh_append (tza : Int → Int) (s : Page) (l1 l2 : List BClass) :
    budget_classes_refresh tza s (l1 ++ l2) =
      budget_classes_refresh tza (budget_classes_refresh tza s l1) l2 := by
  simp [budget_classes_refresh, List.foldl_append]

theorem budget_classes_refresh_cons (tza : Int → Int) (s : Page) (c : BClass)
    (l : List BClass) :
    budget_classes_refresh tza s (c :: l) =
      budget_classes_refresh tza (budget_class_refresh tza s c) l := rfl


/-! ## Refreshing a list of classes -/

theorem budget_classes_refresh_fresh (tza : Int → Int) (bclasses : List BClass) (s : Page)
    (hF : ∀ c ∈ bclasses, ∀ k ∈ bclass_keys c, s.document.getElementById k = none)
    (hP : bclasses.Pairwise
      (fun c c' => ∀ k ∈ bclass_keys c', k = "" ∨ k ∉ (bclass_panel tza c).ids)) :
    (budget_classes_refresh tza s bclasses).document =
      { s.document with
        bclass_expenses := s.document.bclass_expenses ++
          (bclasses.filter bclass_is_expense).map (bclass_panel tza),
        bclass_income := s.document.bclass_income ++
          (bclasses.filter bclass_is_income).map (bclass_panel tza) } := by
  induction bclasses generalizing s with
  | nil => simp [budget_classes_refresh]
  | cons c rest ih =>
    rw [budget_classes_refresh_cons]
    rw [List.pairwise_cons] at hP
    obtain ⟨hhead, htail⟩ := hP
    have h1 := hF c (List.mem_cons_self _ _) c.id (by simp [bclass_keys])
    have h2 := hF c (List.mem_cons_self _ _) (c.id ++ "_btn") (by simp [bclass_keys])
    have h3 := hF c (List.mem_cons_self _ _) (c.id ++ "_content") (by simp [bclass_keys])
    cases he : bclass_is_expense c with
    | true =>
      have hi : bclass_is_income c = false := by
        cases hi : bclass_is_income c
        · rfl
        · exact absurd ⟨he, hi⟩ (not_expense_and_income c)
      have hs := budget_class_refresh_fresh_expense tza s c he h1 h2 h3
      rw [ih (budget_class_refresh tza s c) ?_ htail]
      · rw [hs]
        simp [List.filter_cons, he, hi]
      · intro c' hc' k hk
        rw [hs]
        exact (getElementById_append_expense s.document _ k).mpr
          ⟨hF c' (List.mem_cons_of_mem _ hc') k hk, hhead c' hc' k hk⟩
    | false =>
      cases hi : bclass_is_income c with
      | true =>
        have hs := budget_class_refresh_fresh_income tza s c he hi h1 h2 h3
        rw [ih (budget_class_refresh tza s c) ?_ htail]
        · rw [hs]
          simp [List.filter_cons, he, hi]
        · intro c' hc' k hk
          rw [hs]
          exact (getElementById_append_income s.document _ k).mpr
            ⟨hF c' (List.mem_cons_of_mem _ hc') k hk, hhead c' hc' k hk⟩
      | false =>
        have hs := (budget_class_refresh_unknown tza s c he hi h1).1
        rw [ih (budget_class_refresh tza s c) ?_ htail]
        · rw [hs]
          simp [List.filter_cons, he, hi]
        · intro c' hc' k hk
          rw [hs]
          exact hF c' (List.mem_cons_of_mem _ hc') k hk

theorem keys_not_in_panel (tza : Int → Int) (c c' : BClass)
    (hid : c.id ≠ c'.id)
    (h1 : c'.id ≠ c.id ++ "_btn" ∧ c'.id ≠ c.id ++ "_content")
    (h2 : c.id ≠ c'.id ++ "_btn" ∧ c.id ≠ c'.id ++ "_content")
    (h3 : ∀ t ∈ c.history, c'.id ≠ t.id)
    (h4 : ∀ t ∈ c.history, t.id ≠ c'.id ++ "_btn" ∧ t.id ≠ c'.id ++ "_content") :
    ∀ k ∈ bclass_keys c', k = "" ∨ k ∉ (bclass_panel tza c).ids := by
  intro k hk
  by_cases hke : k = ""
  · exact Or.inl hke
  · right
    intro hmem
    simp only [bclass_keys, List.mem_cons, List.mem_singleton, List.not_mem_nil, or_false] at hk
    rcases mem_ids_panel tza c k hmem with h | h | h | h | ⟨t, ht, h⟩
    · exact hke h
    · rcases hk with hk | hk | hk
      · exact hid (h.symm.trans hk)
      · exact h2.1 (h.symm.trans hk)
      · exact h2.2 (h.symm.trans hk)
    · rcases hk with hk | hk | hk
      · exact h1.1 (hk.symm.trans h)
      · exact hid (append_right_cancel _ _ _ (h.symm.trans hk))
      · exact append_btn_ne_append_content c.id c'.id (h.symm.trans hk)
    · rcases hk with hk | hk | hk
      · exact h1.2 (hk.symm.trans h)
      · exact append_btn_ne_append_content c'.id c.id (hk.symm.trans h)
      · exact hid (append_right_cancel _ _ _ (h.symm.trans hk))
    · rcases hk with hk | hk | hk
      · exact h3 t ht (hk.symm.trans h.symm)
      · exact (h4 t ht).1 (h.trans hk)
      · exact (h4 t ht).2 (h.trans hk)

theorem keys_not_in_document (s : Page) (c : BClass)
    (hsummary : ∀ i ∈ idsList s.document.budget_summary, i = "")
    (hexp : s.document.bclass_expenses = []) (hinc : s.document.bclass_income = [])
    (hcontainer : c.id ≠ "budget_summary" ∧ c.id ≠ "bclass_expenses" ∧
      c.id ≠ "bclass_income") :
    ∀ k ∈ bclass_keys c, s.document.getElementById k = none := by
  intro k hk
  rw [getElementById_eq_none_iff]
  by_cases hke : k = ""
  · exact Or.inl hke
  · right
    rw [Document.mem_ids, hexp, hinc]
    simp only [idsList, List.not_mem_nil, or_false, false_or]
    simp only [bclass_keys, List.mem_cons, List.mem_singleton, List.not_mem_nil, or_false] at hk
    have hb := append_btn_not_container c.id
    have hc := append_content_not_container c.id
    rintro (h | h | h | h)
    · rcases hk with hk | hk | hk <;> subst hk
      · exact hcontainer.1 h
      · exact hb.1 h
      · exact hc.1 h
    · exact hke (hsummary k h)
    · rcases hk with hk | hk | hk <;> subst hk
      · exact hcontainer.2.1 h
      · exact hb.2.1 h
      · exact hc.2.1 h
    · rcases hk with hk | hk | hk <;> subst hk
      · exact hcontainer.2.2 h
      · exact hb.2.2 h
      · exact hc.2.2 h

/-- C9 is not met by the code: the two example classes have distinct ids, none of
which is another class's button or content id, a transaction id or a container id,
and the containers are empty; yet the lookup of the second class's button finds the
transaction row with the id `c2_btn` of the first class, so that the second panel
comes out without a button. -/
theorem panels_counterexample :
    ([utilities, travel].map (fun c => c.id)).Nodup ∧
    (∀ c ∈ [utilities, travel], ∀ c' ∈ [utilities, travel],
      c.id ≠ c'.id ++ "_btn" ∧ c.id ≠ c'.id ++ "_content") ∧
    (∀ c ∈ [utilities, travel], ∀ c' ∈ [utilities, travel], ∀ t ∈ c'.history, c.id ≠ t.id) ∧
    (∀ c ∈ [utilities, travel],
      c.id ≠ "budget_summary" ∧ c.id ≠ "bclass_expenses" ∧ c.id ≠ "bclass_income") ∧
    (budget_classes_refresh utc initial_page [utilities, travel]).document.bclass_expenses ≠
      ([utilities, travel].filter bclass_is_expense).map (bclass_panel utc) ∧
    ((budget_classes_refresh utc initial_page [utilities, travel]).document.bclass_expenses.map
      (fun panel => panel.ids.filter (fun i => i ≠ ""))) =
      [["c1", "c1_btn", "c1_content", "c2_btn"], ["c2", "c2_content"]] ∧
    (budget_classes_refresh utc initial_page [utilities, travel]).collapsible_init_calls =
      ["c1_btn", "c2_btn"] := by
  refine ⟨by decide, by decide, by decide, by decide, ?_, by decide!, by decide!⟩
  intro h
  exact absurd (congrArg idsList h) (by decide!)

/-! ## Classes of unknown type -/

/-- C8, as stated, fails: for a class of unknown type a button is still built and
passed to `collapsible_init`; and when an element with the class's id is already
in the document the class is not logged. -/
theorem unknown_class_counterexample :
    bclass_is_expense misc = false ∧ bclass_is_income misc = false ∧
    "u1_btn" ∈ (budget_classes_refresh utc initial_page [misc]).collapsible_init_calls ∧
    bclass_is_expense rent_shadow = false ∧ bclass_is_income rent_shadow = false ∧
    (budget_classes_refresh utc initial_page [rent, rent_shadow]).console = [] := by
  refine ⟨by decide, by decide, by decide!, by decide, by decide, by decide!⟩

/-- C8, amended. A class that is neither expense nor income and whose id is not
the id of an element already in the document when the class is reached is logged,
refreshing it leaves the document as it was, and the document that results from
the whole list is the one that results from the list without that class. -/
theorem budget_classes_refresh_skips_unknown (tza : Int → Int) (s : Page)
    (pre post : List BClass) (bclass : BClass)
    (he : bclass_is_expense bclass = false) (hi : bclass_is_income bclass = false)
    (hfresh : (budget_classes_refresh tza s pre).document.getElementById bclass.id = none) :
    ("Found budget class of unknown type: " ++ bclass.id) ∈
      (budget_classes_refresh tza s (pre ++ bclass :: post)).console ∧
    (budget_class_refresh tza (budget_classes_refresh tza s pre) bclass).document =
      (budget_classes_refresh tza s pre).document ∧
    (budget_classes_refresh tza s (pre ++ bclass :: post)).document =
      (budget_classes_refresh tza s (pre ++ post)).document := by
  have hu := budget_class_refresh_unknown tza (budget_classes_refresh tza s pre) bclass he hi
    hfresh
  refine ⟨?_, hu.1, ?_⟩
  · rw [budget_classes_refresh_append, budget_classes_refresh_cons]
    obtain ⟨extra, hextra⟩ := budget_classes_refresh_console tza post
      (budget_class_refresh tza (budget_classes_refresh tza s pre) bclass)
    rw [hextra, hu.2]
    simp
  · rw [budget_classes_refresh_append, budget_classes_refresh_cons,
      budget_classes_refresh_append]
    exact budget_classes_refresh_document_congr tza post _ _ hu.1

/-- Witness for C8: the class `misc` between `rent` and `groceries`. -/
theorem budget_classes_refresh_skips_misc :
    ("Found budget class of unknown type: u1") ∈
      (budget_classes_refresh utc initial_page ([rent] ++ misc :: [groceries])).console ∧
    (budget_classes_refresh utc initial_page ([rent] ++ misc :: [groceries])).document =
      (budget_classes_refresh utc initial_page ([rent] ++ [groceries])).document :=
  have h := budget_classes_refresh_skips_unknown utc initial_page [rent] [groceries] misc
    (by decide) (by decide) (by decide!)
  ⟨h.1, h.2.2⟩

/-! ## The net line of the summary, in the arithmetic of doubles -/

theorem JSNumber.lt_zero_gt_zero (x : JSNumber) :
    x.lt JSNumber.zero = true → x.gt JSNumber.zero = false := by
  cases x with
  | nan => simp [JSNumber.lt]
  | infinity n => cases n <;> simp [JSNumber.lt, JSNumber.gt, JSNumber.zero]
  | finite n m =>
    simp only [JSNumber.lt, JSNumber.gt, JSNumber.zero, JSNumber.value, decide_eq_true_eq,
      decide_eq_false_iff_not]
    cases n <;> simp <;> intro h <;> linarith

theorem JSNumber.neither_iff (x : JSNumber) :
    (x.lt JSNumber.zero = false ∧ x.gt JSNumber.zero = false) ↔
      (x.eq JSNumber.zero = true ∨ x = JSNumber.nan) := by
  cases x with
  | nan => simp [JSNumber.lt, JSNumber.gt, JSNumber.zero]
  | infinity n => cases n <;> simp [JSNumber.lt, JSNumber.gt, JSNumber.eq, JSNumber.zero]
  | finite n m =>
    simp only [JSNumber.lt, JSNumber.gt, JSNumber.eq, JSNumber.zero, JSNumber.value,
      decide_eq_true_eq, decide_eq_false_iff_not]
    cases n <;> simp
    · constructor
      · rintro ⟨h1, h2⟩
        exact le_antisymm h2 h1
      · intro h
        simp [h]
    · constructor
      · rintro ⟨h1, h2⟩
        exact le_antisymm h1 h2
      · intro h
        simp [h]

theorem appendInnerHTML_element (t i c : String) (l : List (String × String))
    (cs : List Node) (v : String) :
    (Node.element t i c l cs).appendInnerHTML v =
      Node.element t i c l (cs ++ Node.ofMarkup v) := rfl

/-- The summary paragraph in the arithmetic of doubles: what `summary_refresh`
appends to the summary container. -/
theorem summary_refresh_double_document (format : JSNumber → String) (s : Page)
    (bclasses : List BClass) :
    (summary_refresh_double format s bclasses).document =
      { s.document with
        budget_summary :=
          [Node.element "p" "" "" []
            ([Node.element "b" "" "color-expense1" [] [Node.html "Total expenses: "],
              Node.html (float_to_dollar_string_double format (summary_statistics_double bclasses).1 ++ "<br>"),
              Node.element "b" "" "color-income1" [] [Node.html "Total income: "],
              Node.html (float_to_dollar_string_double format (summary_statistics_double bclasses).2.1 ++ "<br>"),
              Node.element "b" ""
                (if (summary_statistics_double bclasses).2.2.lt JSNumber.zero then "color-acc4"
                 else if (summary_statistics_double bclasses).2.2.gt JSNumber.zero then
                   "color-acc2"
                 else "") []
                [Node.html
                  (if (summary_statistics_double bclasses).2.2.lt JSNumber.zero then
                     "In-the-hole: "
                   else if (summary_statistics_double bclasses).2.2.gt JSNumber.zero then
                     "Extra cash: "
                   else "Broken even!")]] ++
             (if (summary_statistics_double bclasses).2.2.ne JSNumber.zero then
                Node.ofMarkup (float_to_dollar_string_double format (summary_statistics_double bclasses).2.2)
              else []))] } := by
  have h1 : ∀ v : String, Node.ofMarkup (v ++ "<br>") = [Node.html (v ++ "<br>")] :=
    fun v => ofMarkup_of_ne (append_ne_empty_right _ _ (by decide))
  have h3 : Node.ofMarkup "Total expenses: " = [Node.html "Total expenses: "] := rfl
  have h4 : Node.ofMarkup "Total income: " = [Node.html "Total income: "] := rfl
  have h5 : Node.ofMarkup "In-the-hole: " = [Node.html "In-the-hole: "] := rfl
  have h6 : Node.ofMarkup "Extra cash: " = [Node.html "Extra cash: "] := rfl
  have h7 : Node.ofMarkup "Broken even!" = [Node.html "Broken even!"] := rfl
  have h8 : Node.ofMarkup "" = [] := rfl
  unfold summary_refresh_double
  simp only [Document.setInnerHTML, Document.appendChild, summary_container,
    Document.modifyChildrenAt, modifyChildrenAt, createElement_eq, setClassName_element,
    setInnerHTML_element, appendChild_element, appendInnerHTML_element,
    appendClassName_element, h1, h3, h4, h8]
  cases hlt : (summary_statistics_double bclasses).2.2.lt JSNumber.zero <;>
    cases hgt : (summary_statistics_double bclasses).2.2.gt JSNumber.zero <;>
    cases hne : (summary_statistics_double bclasses).2.2.ne JSNumber.zero <;>
    simp [h1, h5, h6, h7, appendInnerHTML_element, appendClassName_element,
      setInnerHTML_element, appendChild_element]

/-- C3, as stated, fails: when the sums of the expense and of the income classes
both overflow, the net value is `NaN`, which is not zero; the label is nevertheless
`Broken even!`, and the formatted net value follows it. -/
theorem summary_net_nan :
    summary_statistics_double overflowing =
      (JSNumber.infinity false, JSNumber.infinity false, JSNumber.nan) ∧
    JSNumber.eq JSNumber.nan JSNumber.zero = false ∧
    JSNumber.ne JSNumber.nan JSNumber.zero = true ∧
    (∀ (format : JSNumber → String) (s : Page),
      (summary_refresh_double format s overflowing).document.budget_summary =
        [Node.element "p" "" "" []
          ([Node.element "b" "" "color-expense1" [] [Node.html "Total expenses: "],
            Node.html (float_to_dollar_string_double format (JSNumber.infinity false) ++ "<br>"),
            Node.element "b" "" "color-income1" [] [Node.html "Total income: "],
            Node.html (float_to_dollar_string_double format (JSNumber.infinity false) ++ "<br>"),
            Node.element "b" "" "" [] [Node.html "Broken even!"]] ++
           Node.ofMarkup (float_to_dollar_string_double format JSNumber.nan))]) := by
  have hs : summary_statistics_double overflowing =
      (JSNumber.infinity false, JSNumber.infinity false, JSNumber.nan) := by decide!
  refine ⟨hs, rfl, rfl, ?_⟩
  intro format s
  rw [summary_refresh_double_document, hs]
  simp [JSNumber.lt, JSNumber.gt, JSNumber.ne, JSNumber.eq, JSNumber.zero]

/-- C3, amended. With the net value computed in doubles as the income total minus
the expense total, the net line of the summary is labelled `In-the-hole: ` exactly
when the net value is negative, `Extra cash: ` exactly when it is positive and
`Broken even!` exactly when it is neither, that is when it is zero or `NaN`; the
dollar formatting of the net value follows the label exactly when the net value
`!= 0`, which holds for `NaN` too. -/
theorem summary_net_line_double (format : JSNumber → String) (s : Page)
    (bclasses : List BClass) :
    ∃ (className label : String) (amount : List Node),
      (summary_refresh_double format s bclasses).document.budget_summary =
        [Node.element "p" "" "" []
          ([Node.element "b" "" "color-expense1" [] [Node.html "Total expenses: "],
            Node.html (float_to_dollar_string_double format (summary_statistics_double bclasses).1 ++ "<br>"),
            Node.element "b" "" "color-income1" [] [Node.html "Total income: "],
            Node.html (float_to_dollar_string_double format (summary_statistics_double bclasses).2.1 ++ "<br>"),
            Node.element "b" "" className [] [Node.html label]] ++ amount)] ∧
      (summary_statistics_double bclasses).2.2 =
        (summary_statistics_double bclasses).2.1.sub (summary_statistics_double bclasses).1 ∧
      (label = "In-the-hole: " ↔
        (summary_statistics_double bclasses).2.2.lt JSNumber.zero = true) ∧
      (label = "Extra cash: " ↔
        (summary_statistics_double bclasses).2.2.gt JSNumber.zero = true) ∧
      (label = "Broken even!" ↔
        ((summary_statistics_double bclasses).2.2.eq JSNumber.zero = true ∨
          (summary_statistics_double bclasses).2.2 = JSNumber.nan)) ∧
      ((summary_statistics_double bclasses).2.2.ne JSNumber.zero = true →
        amount = Node.ofMarkup (float_to_dollar_string_double format (summary_statistics_double bclasses).2.2)) ∧
      ((summary_statistics_double bclasses).2.2.ne JSNumber.zero = false → amount = []) := by
  refine ⟨_, _, _, by rw [summary_refresh_double_document], rfl, ?_⟩
  have hex := JSNumber.lt_zero_gt_zero (summary_statistics_double bclasses).2.2
  have hnb := JSNumber.neither_iff (summary_statistics_double bclasses).2.2
  generalize (summary_statistics_double bclasses).2.2 = net at hex hnb ⊢
  cases hlt : net.lt JSNumber.zero <;> cases hgt : net.gt JSNumber.zero <;>
    cases hne : net.ne JSNumber.zero <;>
    simp [hlt, hgt] at hex hnb ⊢ <;> try exact hnb

/-- Witness for C3: with expenses of 0.1 and 0.2 against an income of 0.3 the
expense total rounds up, the net value is `-2 ^ -54`, and the line reads
`In-the-hole: ` followed by the formatted net value. -/
theorem summary_net_dimes :
    summary_statistics_double dimes =
      (JSNumber.finite false (5404319552844596 / 18014398509481984),
       JSNumber.finite false (5404319552844595 / 18014398509481984),
       JSNumber.finite true (1 / 18014398509481984)) ∧
    (∀ (format : JSNumber → String) (s : Page),
      ∃ (className : String) (amount : List Node),
        (summary_refresh_double format s dimes).document.budget_summary =
          [Node.element "p" "" "" []
            ([Node.element "b" "" "color-expense1" [] [Node.html "Total expenses: "],
              Node.html (float_to_dollar_string_double format (summary_statistics_double dimes).1 ++ "<br>"),
              Node.element "b" "" "color-income1" [] [Node.html "Total income: "],
              Node.html (float_to_dollar_string_double format (summary_statistics_double dimes).2.1 ++ "<br>"),
              Node.element "b" "" className [] [Node.html "In-the-hole: "]] ++ amount)] ∧
        amount = Node.ofMarkup (float_to_dollar_string_double format (JSNumber.finite true (1 / 18014398509481984)))) := by
  have hs : summary_statistics_double dimes =
      (JSNumber.finite false (5404319552844596 / 18014398509481984),
       JSNumber.finite false (5404319552844595 / 18014398509481984),
       JSNumber.finite true (1 / 18014398509481984)) := by decide!
  refine ⟨hs, ?_⟩
  intro format s
  obtain ⟨className, label, amount, hdoc, _, hlt, _, _, hne, _⟩ :=
    summary_net_line_double format s dimes
  have hl : label = "In-the-hole: " := hlt.mpr (by rw [hs]; decide!)
  have ha := hne (by rw [hs]; decide!)
  rw [hl] at hdoc
  rw [hs] at ha
  exact ⟨className, amount, hdoc, ha⟩

end Snowbudget
